import Mathlib

/-!
# SCC Freight backend: authentication gate, fleet membership, load lifecycle

A shallow embedding of

* `middleware/authMiddleware.js` (`protect`, `verifyRole`),
* `routes/fleetRoutes.js` (`POST /create`, `PUT /add-driver/:driverId`,
  `PUT /remove-driver/:driverId`),
* `routes/loadRoutes.js` (its own `loadSchema`, `protect`, `verifyRole`, and the
  `POST /`, `PATCH /:id/status`, `DELETE /:id` handlers),

with the MongoDB collections as lists of documents in insertion order and every
handler as a function from the store and the request to a response and a store.

Conventions of the model:

* an `ObjectId` is a natural number below `16 ^ 24`; its string form is its 24
  lower-case hex digits. A path parameter (`:id`, `:driverId`) is the raw string
  of the URL; a query that takes it as an `_id` casts it first, and throws on a
  string that is not 24 hex digits;
* `jwt.verify` is a parameter `verify`: it receives the token expression the code
  passes (`none` when `split(" ")[1]` is `undefined`) and returns the decoded
  claims, or `none` when it throws;
* every handler receives the time `now` of the call, which `timestamps: true`
  writes to `createdAt` and `updatedAt`;
* a failure of the storage engine itself is not modelled.
-/

namespace Freight

/-- Mongo `ObjectId`. -/
abbrev ObjectId := Nat

/-! ## Documents -/

/-- A document of the `User` collection, restricted to the paths the routes read
(`models/userModel.js`) and the stamps of `timestamps: true`, together with
`fleetId`, the path `fleetRoutes.js` names in its updates. `userSchema` does not
declare `fleetId`. -/
structure User where
  _id : ObjectId
  name : String
  email : String
  role : String
  fleetId : Option ObjectId
  createdAt : Nat
  updatedAt : Nat
deriving DecidableEq, Repr

/-- The payload signed by `jwt.sign({ id, email, role }, ...)` in `server.js`. -/
structure Claims where
  id : ObjectId
  email : String
  role : String
deriving DecidableEq, Repr

/-- A document of the `Fleet` collection (`models/fleetModel.js`). `fleetName`
is stored trimmed; names in the model stand for the trimmed strings. -/
structure Fleet where
  _id : ObjectId
  fleetName : String
  owner : ObjectId
  drivers : List ObjectId
  mcNumber : String
  status : String
  createdAt : Nat
  updatedAt : Nat
deriving DecidableEq, Repr

/-- A document of the `Load` collection as `routes/loadRoutes.js` declares it
(`loadSchema`, lines 8-26): the shipper is `shipperId`, there is no `carrier`
path, `status` ranges over `pending, assigned, in_transit, delivered,
cancelled`, and `timestamps: true` adds `createdAt` and `updatedAt`. -/
structure Load where
  _id : ObjectId
  shipperId : ObjectId
  shipperName : Option String
  origin : String
  destination : String
  cargoType : String
  weight : Int
  price : Int
  pickupDate : Nat
  deliveryDate : Option Nat
  status : String
  createdAt : Nat
  updatedAt : Nat
deriving DecidableEq, Repr

/-- The database: three collections and the generator of fresh `ObjectId`s. -/
structure Store where
  users : List User
  fleets : List Fleet
  loads : List Load
  nextId : ObjectId
deriving DecidableEq, Repr

/-! ## Requests and responses -/

/-- The part of an Express request the middlewares use: the `authorization`
header and `req.user`, of type `P` (a `User` document for the shared
middleware, the decoded `Claims` in `loadRoutes.js`). -/
structure Req (P : Type) where
  authorization : Option String
  user : Option P
deriving DecidableEq, Repr

/-- JSON bodies sent by the routes. -/
inductive Body where
  | message (m : String)
  | error (e : String)
  | fleet (m : String) (f : Fleet)
  | load (m : String) (l : Load)
deriving DecidableEq, Repr

/-- What a route does with a request: `res.status(n).json(body)`, or an
exception that no `try` of the route catches. -/
inductive Outcome where
  | reply (status : Nat) (body : Body)
  | uncaught
deriving DecidableEq, Repr

/-- What a middleware does: call `next()` (with the request as it left it),
answer with `res.status(n).json({ message })`, or throw. -/
inductive MwResult (P : Type) where
  | next (req : Req P)
  | respond (status : Nat) (message : String)
  | throws
deriving DecidableEq, Repr

/-- The status sent by an outcome, if it sent one. -/
def Outcome.status? : Outcome → Option Nat
  | .reply st _ => some st
  | .uncaught => none

/-! ## JavaScript string operations used by `protect` -/

/-- The method `String.prototype.startsWith`. -/
def startsWith (s pre : String) : Bool :=
  pre.toList.isPrefixOf s.toList

/-- Splitting a character list at every occurrence of `sep`; empty pieces are
kept, and the empty list gives one empty piece, as `split` does. -/
def splitChars (sep : Char) : List Char → List (List Char)
  | [] => [[]]
  | c :: cs =>
    if c = sep then [] :: splitChars sep cs
    else
      match splitChars sep cs with
      | [] => [[c]]
      | w :: ws => (c :: w) :: ws

/-- The call `s.split(" ")`. -/
def split (s : String) : List String :=
  (splitChars ' ' s.toList).map String.mk

/-- The expression `authorization.split(" ")[1]`: `none` is `undefined`. -/
def secondWord (authorization : String) : Option String :=
  (split authorization)[1]?

/-! ## `ObjectId` and its string form -/

/-- The lower-case hex digit of `n`, for `n < 16`. -/
def hexDigit (n : Nat) : Char :=
  if n < 10 then Char.ofNat (48 + n) else Char.ofNat (87 + n)

/-- The last `k` hex digits of `n`, the most significant first. -/
def hexDigits : Nat → Nat → List Char
  | 0, _ => []
  | k + 1, n => hexDigits k (n / 16) ++ [hexDigit (n % 16)]

/-- The method `id.toString()` of an `ObjectId`: 24 lower-case hex digits. -/
def hexString (id : ObjectId) : String :=
  String.mk (hexDigits 24 id)

/-- The value of a hex digit, in either case. -/
def hexValue (c : Char) : Option Nat :=
  if 48 ≤ c.toNat ∧ c.toNat ≤ 57 then some (c.toNat - 48)
  else if 97 ≤ c.toNat ∧ c.toNat ≤ 102 then some (c.toNat - 87)
  else if 65 ≤ c.toNat ∧ c.toNat ≤ 70 then some (c.toNat - 55)
  else none

/-- One step of reading a hex numeral from the left. -/
def hexStep (acc : Option Nat) (c : Char) : Option Nat :=
  match acc, hexValue c with
  | some a, some v => some (16 * a + v)
  | _, _ => none

/-- The number a list of hex digits denotes, if they all are hex digits. -/
def parseHex (cs : List Char) : Option Nat :=
  cs.foldl hexStep (some 0)

/-- Mongoose's cast of a string to an `ObjectId`, as `findById`,
`findByIdAndUpdate` and `findByIdAndDelete` apply it to their argument: a
string of 24 hex digits, in either case, denotes an id; on any other string the
query throws a `CastError`, here `none`. (Before version 5 of `bson` a string of
12 characters was also read, as 12 raw bytes; that reading is left out.) -/
def castObjectId (raw : String) : Option ObjectId :=
  if raw.length = 24 then parseHex raw.toList else none

/-- The `message` of the `CastError`, abbreviated. -/
def castError : String := "Cast to ObjectId failed"

/-! ## Collection operations -/

/-- Apply `f` to the first element that satisfies `p` (`updateOne`,
`findOneAndUpdate`: one document is written). -/
def updateFirst {α : Type} (p : α → Bool) (f : α → α) : List α → List α
  | [] => []
  | a :: as => if p a then f a :: as else a :: updateFirst p f as

/-- The query `User.findById(id)`. -/
def findUserById (users : List User) (id : ObjectId) : Option User :=
  users.find? (fun u => u._id == id)

/-- The calls `User.findByIdAndUpdate(id, { fleetId: v })` and
`User.findByIdAndUpdate(id, { $unset: { fleetId: "" } })` (`v = none`), with the
id already cast. `userSchema` does not declare `fleetId` and sets no `strict`
option, so Mongoose (strict by default) removes the path from the update: `v`
is never stored. What is left of the update is the `updatedAt` stamp that
`timestamps: true` adds to every `findOneAndUpdate`. -/
def setUserFleetId (now : Nat) (users : List User) (id : ObjectId)
    (_v : Option ObjectId) : List User :=
  updateFirst (fun u => u._id == id) (fun u => { u with updatedAt := now }) users

/-- The call `fleet.save()` on a fetched and modified document: the stored
document with its `_id` becomes `fleet`. -/
def saveFleet (fleets : List Fleet) (fleet : Fleet) : List Fleet :=
  updateFirst (fun g => g._id == fleet._id) (fun _ => fleet) fleets

/-! ## `middleware/authMiddleware.js` -/

namespace AuthMiddleware

/-- The shared `protect` (lines 6-35): re-fetches the user named by the token. -/
def protect (verify : Option String → Option Claims) (s : Store) (req : Req User) :
    MwResult User :=
  match req.authorization with
  | none => .respond 401 "No token provided"
  | some authorization =>
    if authorization != "" && startsWith authorization "Bearer" then
      match verify (secondWord authorization) with
      | none => .respond 401 "Invalid or expired token"
      | some decoded =>
        match findUserById s.users decoded.id with
        | none => .respond 401 "User not found"
        | some user => .next { req with user := some user }
    else .respond 401 "No token provided"

/-- The shared `verifyRole(...allowedRoles)` (lines 38-52). -/
def verifyRole (allowedRoles : List String) (req : Req User) : MwResult User :=
  match req.user with
  | none => .respond 401 "Unauthorized: No user found"
  | some user =>
    if !allowedRoles.contains user.role then
      .respond 403 "Forbidden: You do not have access to this resource"
    else .next req

end AuthMiddleware

/-! ## The route pipeline -/

/-- Express runs the middlewares of a route in order; the handler runs only if
every one of them called `next()`. A middleware that answers or throws ends the
request with the store as it was. -/
def runRoute {P : Type} (mws : List (Store → Req P → MwResult P))
    (handler : Store → Req P → Outcome × Store) (s : Store) (req : Req P) :
    Outcome × Store :=
  match mws with
  | [] => handler s req
  | mw :: rest =>
    match mw s req with
    | .next req1 => runRoute rest handler s req1
    | .respond st m => (.reply st (.message m), s)
    | .throws => (.uncaught, s)

/-! ## `routes/fleetRoutes.js` -/

namespace FleetRoutes

/-- The message of the `TypeError` raised by reading `req.user._id` when
`req.user` is not set; the handlers catch it and answer 500. -/
def noUserError : String := "Cannot read properties of undefined (reading '_id')"

/-- The `message` of the validation error of `Fleet.create`, abbreviated. -/
def validationError : String := "Fleet validation failed"

/-- Handler of `POST /create` (lines 14-36); `fleetName` and `mcNumber` are the
fields of `req.body` (`mcNumber` absent takes the schema default `""`).
`Fleet.create` rejects an empty `fleetName` (`required: true`), which the
handler answers with 500. -/
def createFleet (now : Nat) (fleetName : String) (mcNumber : Option String)
    (s : Store) (req : Req User) : Outcome × Store :=
  match s.fleets.find? (fun f => f.fleetName == fleetName) with
  | some _ => (.reply 400 (.message "Fleet name already exists."), s)
  | none =>
    match req.user with
    | none => (.reply 500 (.error noUserError), s)
    | some user =>
      if fleetName == "" then (.reply 500 (.error validationError), s)
      else
        let fleet : Fleet :=
          { _id := s.nextId, fleetName := fleetName, owner := user._id,
            drivers := [user._id], mcNumber := mcNumber.getD "", status := "active",
            createdAt := now, updatedAt := now }
        (.reply 201 (.fleet "Fleet created successfully." fleet),
          { s with
            fleets := s.fleets ++ [fleet]
            users := setUserFleetId now s.users user._id (some fleet._id)
            nextId := s.nextId + 1 })

/-- Handler of `PUT /add-driver/:driverId` (lines 43-66); `driverId` is the raw
path parameter, which `User.findById` casts. -/
def addDriver (now : Nat) (driverId : String) (s : Store) (req : Req User) :
    Outcome × Store :=
  match req.user with
  | none => (.reply 500 (.error noUserError), s)
  | some user =>
    match s.fleets.find? (fun f => f.owner == user._id) with
    | none => (.reply 404 (.message "Fleet not found for this user."), s)
    | some fleet =>
      match castObjectId driverId with
      | none => (.reply 500 (.error castError), s)
      | some id =>
        match findUserById s.users id with
        | none => (.reply 404 (.message "Driver not found."), s)
        | some driver =>
          if fleet.drivers.contains driver._id then
            (.reply 400 (.message "Driver already in fleet."), s)
          else
            let fleet1 : Fleet :=
              { fleet with drivers := fleet.drivers ++ [driver._id], updatedAt := now }
            (.reply 200 (.fleet "Driver added successfully." fleet1),
              { s with
                fleets := saveFleet s.fleets fleet1
                users := setUserFleetId now s.users driver._id (some fleet1._id) })

/-- The document `fleet` after `fleet.drivers = fleet.drivers.filter(id =>
id.toString() !== driverId)`: the filter compares the string form of each id
with the raw path parameter. An assignment that leaves the list as it was marks
nothing modified, and `save` then writes nothing; otherwise `save` writes the
list and the `updatedAt` stamp. -/
def withoutDriver (now : Nat) (driverId : String) (fleet : Fleet) : Fleet :=
  if fleet.drivers.filter (fun id => hexString id != driverId) = fleet.drivers then fleet
  else
    { fleet with
      drivers := fleet.drivers.filter (fun id => hexString id != driverId)
      updatedAt := now }

/-- Handler of `PUT /remove-driver/:driverId` (lines 73-88); `driverId` is the
raw path parameter. The fleet is saved before `User.findByIdAndUpdate` casts
`driverId`, so a `CastError` is answered 500 after the save. -/
def removeDriver (now : Nat) (driverId : String) (s : Store) (req : Req User) :
    Outcome × Store :=
  match req.user with
  | none => (.reply 500 (.error noUserError), s)
  | some user =>
    match s.fleets.find? (fun f => f.owner == user._id) with
    | none => (.reply 404 (.message "Fleet not found for this user."), s)
    | some fleet =>
      let fleet1 : Fleet := withoutDriver now driverId fleet
      let fleets1 : List Fleet :=
        if fleet1 = fleet then s.fleets else saveFleet s.fleets fleet1
      match castObjectId driverId with
      | none => (.reply 500 (.error castError), { s with fleets := fleets1 })
      | some id =>
        (.reply 200 (.fleet "Driver removed successfully." fleet1),
          { s with
            fleets := fleets1
            users := setUserFleetId now s.users id none })

/-- The middlewares every mutating fleet route declares:
`protect, verifyRole("admin", "dispatcher")`. -/
def gate (verify : Option String → Option Claims) :
    List (Store → Req User → MwResult User) :=
  [AuthMiddleware.protect verify,
   fun _ req => AuthMiddleware.verifyRole ["admin", "dispatcher"] req]

/-- Route `POST /api/fleet/create`. -/
def createRoute (verify : Option String → Option Claims) (now : Nat)
    (fleetName : String) (mcNumber : Option String) :
    Store → Req User → Outcome × Store :=
  runRoute (gate verify) (createFleet now fleetName mcNumber)

/-- Route `PUT /api/fleet/add-driver/:driverId`. -/
def addDriverRoute (verify : Option String → Option Claims) (now : Nat)
    (driverId : String) : Store → Req User → Outcome × Store :=
  runRoute (gate verify) (addDriver now driverId)

/-- Route `PUT /api/fleet/remove-driver/:driverId`. -/
def removeDriverRoute (verify : Option String → Option Claims) (now : Nat)
    (driverId : String) : Store → Req User → Outcome × Store :=
  runRoute (gate verify) (removeDriver now driverId)

end FleetRoutes

/-! ## `routes/loadRoutes.js` -/

namespace LoadRoutes

/-- The local `protect` (lines 31-45): `req.user` is the decoded token. -/
def protect (verify : Option String → Option Claims) (_s : Store) (req : Req Claims) :
    MwResult Claims :=
  match req.authorization with
  | none => .respond 401 "No token provided"
  | some authHeader =>
    if authHeader == "" || !startsWith authHeader "Bearer " then
      .respond 401 "No token provided"
    else
      match verify (secondWord authHeader) with
      | none => .respond 401 "Invalid or expired token"
      | some decoded => .next { req with user := some decoded }

/-- The local `verifyRole(...allowedRoles)` (lines 48-55): reading
`req.user.role` throws when `req.user` is not set. -/
def verifyRole (allowedRoles : List String) (req : Req Claims) : MwResult Claims :=
  match req.user with
  | none => .throws
  | some user =>
    if !allowedRoles.contains user.role then .respond 403 "Access denied"
    else .next req

/-- The fields `POST /` reads from `req.body`; `none` is a missing field. -/
structure LoadFields where
  origin : Option String
  destination : Option String
  cargoType : Option String
  weight : Option Int
  price : Option Int
  pickupDate : Option Nat
  deliveryDate : Option Nat
deriving DecidableEq, Repr

/-- The `required: true` check of a `String` path: present and not empty. -/
def requiredString : Option String → Option String
  | some v => if v == "" then none else some v
  | none => none

/-- The message of the `TypeError` raised by reading `req.user.id` when
`req.user` is not set. -/
def noUserError : String := "Cannot read properties of undefined (reading 'id')"

/-- Handler of `POST /` (lines 58-83): `new Load({...}).save()`. The document
gets the schema default `status: "pending"` and both stamps; a missing required
path makes `save` throw, which the handler answers with 500 (the validation
message is abbreviated). -/
def postLoad (now : Nat) (body : LoadFields) (s : Store) (req : Req Claims) :
    Outcome × Store :=
  match req.user with
  | none => (.reply 500 (.error noUserError), s)
  | some user =>
    match requiredString body.origin, requiredString body.destination,
      requiredString body.cargoType, body.weight, body.price, body.pickupDate with
    | some origin, some destination, some cargoType, some weight, some price,
      some pickupDate =>
      let newLoad : Load :=
        { _id := s.nextId, shipperId := user.id, shipperName := some user.email,
          origin := origin, destination := destination, cargoType := cargoType,
          weight := weight, price := price, pickupDate := pickupDate,
          deliveryDate := body.deliveryDate, status := "pending",
          createdAt := now, updatedAt := now }
      (.reply 201 (.load "✅ Load posted successfully" newLoad),
        { s with loads := s.loads ++ [newLoad], nextId := s.nextId + 1 })
    | _, _, _, _, _, _ => (.reply 500 (.error "Load validation failed"), s)

/-- Handler of `PATCH /:id/status` (lines 106-116):
`Load.findByIdAndUpdate(req.params.id, { status }, { new: true })`. `id` is the
raw path parameter: a `CastError` is caught and answered 500. Update validators
are off, so any string is stored; `timestamps: true` rewrites `updatedAt`. -/
def updateStatus (now : Nat) (id : String) (status : String) (s : Store)
    (_req : Req Claims) : Outcome × Store :=
  match castObjectId id with
  | none => (.reply 500 (.error castError), s)
  | some oid =>
    match s.loads.find? (fun l => l._id == oid) with
    | none => (.reply 404 (.message "Load not found"), s)
    | some load =>
      (.reply 200 (.load "✅ Load status updated"
          { load with status := status, updatedAt := now }),
        { s with
          loads := updateFirst (fun l => l._id == oid)
            (fun l => { l with status := status, updatedAt := now }) s.loads })

/-- Handler of `DELETE /:id` (lines 119-128):
`Load.findByIdAndDelete(req.params.id)`. `id` is the raw path parameter: a
`CastError` is caught and answered 500. -/
def deleteLoad (id : String) (s : Store) (_req : Req Claims) : Outcome × Store :=
  match castObjectId id with
  | none => (.reply 500 (.error castError), s)
  | some oid =>
    match s.loads.find? (fun l => l._id == oid) with
    | none => (.reply 404 (.message "Load not found"), s)
    | some _ =>
      (.reply 200 (.message "🗑️ Load deleted successfully"),
        { s with loads := s.loads.eraseP (fun l => l._id == oid) })

/-- Route `POST /api/loads`: `protect, verifyRole("shipper")`. -/
def postRoute (verify : Option String → Option Claims) (now : Nat) (body : LoadFields) :
    Store → Req Claims → Outcome × Store :=
  runRoute [protect verify, fun _ req => verifyRole ["shipper"] req] (postLoad now body)

/-- Route `PATCH /api/loads/:id/status`:
`protect, verifyRole("dispatcher", "admin")`. -/
def updateStatusRoute (verify : Option String → Option Claims) (now : Nat)
    (id : String) (status : String) : Store → Req Claims → Outcome × Store :=
  runRoute [protect verify, fun _ req => verifyRole ["dispatcher", "admin"] req]
    (updateStatus now id status)

/-- Route `DELETE /api/loads/:id`: `protect, verifyRole("shipper", "admin")`. -/
def deleteRoute (verify : Option String → Option Claims) (id : String) :
    Store → Req Claims → Outcome × Store :=
  runRoute [protect verify, fun _ req => verifyRole ["shipper", "admin"] req]
    (deleteLoad id)

end LoadRoutes

/-! ## The claims' vocabulary -/

/-- A header of the exact form `Bearer <token>`: split at spaces it is the word
`Bearer` followed by one non-empty token. -/
def isBearerForm (authorization : String) : Bool :=
  match split authorization with
  | [word, token] => word == "Bearer" && token != ""
  | _ => false

/-- The header is absent, empty, or does not start with `pre`. -/
def lacksLead (pre : String) : Option String → Bool
  | none => true
  | some authorization => authorization == "" || !startsWith authorization pre

/-! ## Sequences of fleet calls -/

/-- A call of the fleet membership manager that has passed its gate, made at
time `now`; `caller` is the user `protect` put in `req.user`, and `driverId` the
raw path parameter. -/
inductive FleetCall where
  | createFleet (now : Nat) (caller : User) (fleetName : String)
      (mcNumber : Option String)
  | addDriver (now : Nat) (caller : User) (driverId : String)
  | removeDriver (now : Nat) (caller : User) (driverId : String)
deriving DecidableEq, Repr

/-- The store a call leaves, whether it succeeded or failed. -/
def FleetCall.run (s : Store) : FleetCall → Store
  | .createFleet now caller fleetName mcNumber =>
    (FleetRoutes.createFleet now fleetName mcNumber s ⟨none, some caller⟩).2
  | .addDriver now caller driverId =>
    (FleetRoutes.addDriver now driverId s ⟨none, some caller⟩).2
  | .removeDriver now caller driverId =>
    (FleetRoutes.removeDriver now driverId s ⟨none, some caller⟩).2

/-- The store after a sequence of calls, run in order. -/
def runCalls (s : Store) (calls : List FleetCall) : Store :=
  calls.foldl FleetCall.run s

/-- No fleet of the store lists a driver twice. -/
def DriversNodup (s : Store) : Prop :=
  ∀ f ∈ s.fleets, f.drivers.Nodup

/-- The mirror-field consistency the specification asks for: every id in the
`drivers` of a fleet is a stored user whose `fleetId` is that fleet's id. -/
def mirrorConsistent (s : Store) : Bool :=
  s.fleets.all fun f =>
    f.drivers.all fun d =>
      match findUserById s.users d with
      | some u => u.fleetId == some f._id
      | none => false

/-- The `_id` and `fleetId` of every stored user, in order. -/
def fleetIds (s : Store) : List (ObjectId × Option ObjectId) :=
  s.users.map fun u => (u._id, u.fleetId)

/-! ## Sample data -/

namespace Sample

/-- A verifier that accepts the token `tok` as signed for user 7, a shipper. -/
def verifyTok : Option String → Option Claims := fun token =>
  if token = some "tok" then some { id := 7, email := "s7@scc.test", role := "shipper" }
  else none

/-- A verifier that accepts the token `tok` as signed for user 8, a dispatcher. -/
def verifyDispatcher : Option String → Option Claims := fun token =>
  if token = some "tok" then some { id := 8, email := "d8@scc.test", role := "dispatcher" }
  else none

/-- A verifier that accepts the token `tok` as signed for user 2, a dispatcher
of the sample stores. -/
def verifyDan : Option String → Option Claims := fun token =>
  if token = some "tok" then some { id := 2, email := "d2@scc.test", role := "dispatcher" }
  else none

/-- User 7, a shipper. -/
def shipper7 : User :=
  { _id := 7, name := "Sam", email := "s7@scc.test", role := "shipper", fleetId := none,
    createdAt := 10, updatedAt := 10 }

/-- User 1, an admin. -/
def admin1 : User :=
  { _id := 1, name := "Ada", email := "a1@scc.test", role := "admin", fleetId := none,
    createdAt := 10, updatedAt := 10 }

/-- User 2, a dispatcher. -/
def dispatcher2 : User :=
  { _id := 2, name := "Dan", email := "d2@scc.test", role := "dispatcher",
    fleetId := none, createdAt := 10, updatedAt := 10 }

/-- User 3, a carrier. -/
def carrier3 : User :=
  { _id := 3, name := "Cal", email := "c3@scc.test", role := "carrier", fleetId := none,
    createdAt := 10, updatedAt := 10 }

/-- A store with no document at all. -/
def emptyStore : Store := { users := [], fleets := [], loads := [], nextId := 100 }

/-- A store whose only documents are the users 1, 2, 3 and 7. -/
def usersOnly : Store :=
  { users := [admin1, dispatcher2, carrier3, shipper7], fleets := [], loads := [],
    nextId := 100 }

/-- The body of the end-to-end scenario of the specification. -/
def dryLoad : LoadRoutes.LoadFields :=
  { origin := some "A", destination := some "B", cargoType := some "dry",
    weight := some 1000, price := some 500, pickupDate := some 20250101,
    deliveryDate := none }

/-- Load 50 of shipper 9, delivered. -/
def load50 : Load :=
  { _id := 50, shipperId := 9, shipperName := some "s9@scc.test", origin := "A",
    destination := "B", cargoType := "dry", weight := 1000, price := 500,
    pickupDate := 20250101, deliveryDate := none, status := "delivered",
    createdAt := 20, updatedAt := 30 }

/-- A store with no user and one load, the delivered load 50. -/
def orphanLoads : Store :=
  { users := [], fleets := [], loads := [load50], nextId := 100 }

/-- The path parameter that names id 50: `000000000000000000000032`. -/
def id50 : String := hexString 50

/-- The path parameter that names id 3: `000000000000000000000003`. -/
def id3 : String := hexString 3

/-- Users 1 and 2 each create a fleet, then each adds driver 3 to their own. -/
def twoFleets : List FleetCall :=
  [.createFleet 40 admin1 "North" none, .createFleet 41 dispatcher2 "South" none,
   .addDriver 42 admin1 id3, .addDriver 43 dispatcher2 id3]

/-- A store in which user 1 owns the fleet `North`, number 100. -/
def withNorth : Store :=
  runCalls usersOnly [.createFleet 40 admin1 "North" none]

/-- User 1 owns `North` (number 100), which lists driver 3; user 2 owns `South`
(number 101), which does not. -/
def northSouth : Store :=
  runCalls usersOnly
    [.createFleet 40 admin1 "North" none, .createFleet 41 dispatcher2 "South" none,
     .addDriver 42 admin1 id3]

end Sample

/-! ## Lemmas on the pipeline and the collections -/

theorem runRoute_two_pass {P : Type} (mw1 mw2 : Store → Req P → MwResult P)
    (handler : Store → Req P → Outcome × Store) (s : Store) (req req1 req2 : Req P)
    (h1 : mw1 s req = .next req1) (h2 : mw2 s req1 = .next req2) :
    runRoute [mw1, mw2] handler s req = handler s req2 := by
  simp [runRoute, h1, h2]

theorem runRoute_first_respond {P : Type} (mw1 : Store → Req P → MwResult P)
    (rest : List (Store → Req P → MwResult P))
    (handler : Store → Req P → Outcome × Store) (s : Store) (req : Req P)
    (st : Nat) (m : String) (h1 : mw1 s req = .respond st m) :
    runRoute (mw1 :: rest) handler s req = (.reply st (.message m), s) := by
  simp [runRoute, h1]

theorem startsWith_ne_empty (a pre : String) (hpre : pre ≠ "")
    (h : startsWith a pre = true) : a ≠ "" := by
  rintro rfl
  apply hpre
  have : pre.data = [] := by simpa [startsWith] using h
  exact String.ext this

/-- A load route whose request carries a header starting with `Bearer ` and a
token that verifies to claims with a permitted role runs its handler on the
request with `req.user` set to those claims. -/
theorem load_route_authorised (verify : Option String → Option Claims)
    (roles : List String) (handler : Store → Req Claims → Outcome × Store)
    (s : Store) (req : Req Claims) (h : String) (c : Claims)
    (hh : req.authorization = some h) (hb : startsWith h "Bearer " = true)
    (hv : verify (secondWord h) = some c) (hr : c.role ∈ roles) :
    runRoute [LoadRoutes.protect verify, fun _ r => LoadRoutes.verifyRole roles r]
      handler s req = handler s { req with user := some c } := by
  have hne : h ≠ "" := startsWith_ne_empty h "Bearer " (by decide) hb
  apply runRoute_two_pass _ _ handler s req { req with user := some c }
    { req with user := some c }
  · simp [LoadRoutes.protect, hh, hb, hv, hne]
  · simp [LoadRoutes.verifyRole, hr]

/-- A fleet route whose request carries a header starting with `Bearer`, a token
that verifies, a live user for the token's id and a permitted role runs its
handler on the request with `req.user` set to that user. -/
theorem fleet_route_authorised (verify : Option String → Option Claims)
    (handler : Store → Req User → Outcome × Store)
    (s : Store) (req : Req User) (h : String) (c : Claims) (u : User)
    (hh : req.authorization = some h) (hb : startsWith h "Bearer" = true)
    (hv : verify (secondWord h) = some c) (hu : findUserById s.users c.id = some u)
    (hr : u.role ∈ ["admin", "dispatcher"]) :
    runRoute (FleetRoutes.gate verify) handler s req
      = handler s { req with user := some u } := by
  have hne : h ≠ "" := startsWith_ne_empty h "Bearer" (by decide) hb
  unfold FleetRoutes.gate
  apply runRoute_two_pass _ _ handler s req { req with user := some u }
    { req with user := some u }
  · simp [AuthMiddleware.protect, hh, hb, hv, hu, hne]
  · have hr2 : u.role = "admin" ∨ u.role = "dispatcher" := by simpa using hr
    simp [AuthMiddleware.verifyRole]
    tauto

/-- The shared `protect` answers 401 when the token of the request verifies to
an id that no stored user has. -/
theorem protect_user_gone (verify : Option String → Option Claims)
    (s : Store) (req : Req User) (h : String) (c : Claims)
    (hh : req.authorization = some h) (hv : verify (secondWord h) = some c)
    (hu : findUserById s.users c.id = none) :
    ∃ m, AuthMiddleware.protect verify s req = .respond 401 m := by
  unfold AuthMiddleware.protect
  rw [hh]
  by_cases hc : (h != "" && startsWith h "Bearer") = true
  · exact ⟨"User not found", by simp only [hc, if_true, hv, hu]⟩
  · exact ⟨"No token provided", by simp only [hc, if_false]; rfl⟩

/-! ## Lemmas on the string form of an `ObjectId` -/

theorem hexDigits_length (k n : Nat) : (hexDigits k n).length = k := by
  induction k generalizing n with
  | zero => rfl
  | succ k ih => simp [hexDigits, ih]

theorem hexValue_hexDigit (d : Nat) (hd : d < 16) : hexValue (hexDigit d) = some d := by
  interval_cases d <;> decide

theorem parseHex_append (cs : List Char) (c : Char) :
    parseHex (cs ++ [c]) = hexStep (parseHex cs) c := by
  simp [parseHex, List.foldl_append]

theorem parseHex_hexDigits (k n : Nat) :
    parseHex (hexDigits k n) = some (n % 16 ^ k) := by
  induction k generalizing n with
  | zero => simp [hexDigits, parseHex, Nat.mod_one]
  | succ k ih =>
    have hv := hexValue_hexDigit (n % 16) (Nat.mod_lt n (by decide))
    rw [hexDigits, parseHex_append, ih]
    simp only [hexStep, hv, Option.some.injEq]
    rw [Nat.pow_succ, Nat.mul_comm (16 ^ k) 16, Nat.mod_mul]
    exact Nat.add_comm _ _

/-- Casting the string form of an id gives the id back. -/
theorem castObjectId_hexString (id : ObjectId) :
    castObjectId (hexString id) = some (id % 16 ^ 24) := by
  unfold castObjectId hexString
  have hlen : (String.mk (hexDigits 24 id)).length = 24 := by
    simp [String.length, hexDigits_length]
  rw [if_pos hlen]
  exact parseHex_hexDigits 24 id

/-- No id has an uncastable string as its string form. -/
theorem hexString_ne_of_uncastable (raw : String) (h : castObjectId raw = none)
    (id : ObjectId) : hexString id ≠ raw := by
  intro heq
  rw [← heq, castObjectId_hexString] at h
  exact Option.noConfusion h

/-- An id whose string form is `raw` is the id `raw` casts to. -/
theorem eq_of_hexString_eq (raw : String) (d id : ObjectId)
    (h : castObjectId raw = some d) (hid : id < 16 ^ 24) (heq : hexString id = raw) :
    id = d := by
  rw [← heq, castObjectId_hexString, Nat.mod_eq_of_lt hid] at h
  exact Option.some.inj h

/-! ## C1: the role gate -/

/-- C1. For every list `allowedRoles` and every resolved principal, both copies
of `verifyRole` call `next()` (with the request untouched) exactly when the
principal's role is an element of `allowedRoles`; when it is not, they answer
403, and a route guarded by the gate then ends with the store unchanged,
whatever its handler is. -/
theorem verifyRole_exact_membership (allowedRoles : List String)
    (authorization : Option String) (user : User) (claims : Claims) :
    (AuthMiddleware.verifyRole allowedRoles ⟨authorization, some user⟩
        = .next ⟨authorization, some user⟩ ↔ user.role ∈ allowedRoles) ∧
    ((∃ r, AuthMiddleware.verifyRole allowedRoles ⟨authorization, some user⟩ = .next r)
        ↔ user.role ∈ allowedRoles) ∧
    (user.role ∉ allowedRoles →
      AuthMiddleware.verifyRole allowedRoles ⟨authorization, some user⟩
        = .respond 403 "Forbidden: You do not have access to this resource" ∧
      ∀ (handler : Store → Req User → Outcome × Store) (s : Store),
        runRoute [fun _ r => AuthMiddleware.verifyRole allowedRoles r] handler s
            ⟨authorization, some user⟩
          = (.reply 403 (.message "Forbidden: You do not have access to this resource"),
              s)) ∧
    (LoadRoutes.verifyRole allowedRoles ⟨authorization, some claims⟩
        = .next ⟨authorization, some claims⟩ ↔ claims.role ∈ allowedRoles) ∧
    ((∃ r, LoadRoutes.verifyRole allowedRoles ⟨authorization, some claims⟩ = .next r)
        ↔ claims.role ∈ allowedRoles) ∧
    (claims.role ∉ allowedRoles →
      LoadRoutes.verifyRole allowedRoles ⟨authorization, some claims⟩
        = .respond 403 "Access denied" ∧
      ∀ (handler : Store → Req Claims → Outcome × Store) (s : Store),
        runRoute [fun _ r => LoadRoutes.verifyRole allowedRoles r] handler s
            ⟨authorization, some claims⟩
          = (.reply 403 (.message "Access denied"), s)) := by
  by_cases hu : user.role ∈ allowedRoles <;> by_cases hc : claims.role ∈ allowedRoles <;>
    simp [AuthMiddleware.verifyRole, LoadRoutes.verifyRole, runRoute, hu, hc]

/-- C1 at a concrete input: an admin meets a gate that lists only `carrier`,
and is refused by both copies. -/
theorem verifyRole_exact_membership_witness :
    AuthMiddleware.verifyRole ["carrier"] ⟨none, some Sample.admin1⟩
      = .respond 403 "Forbidden: You do not have access to this resource" ∧
    LoadRoutes.verifyRole ["carrier"] ⟨none, some ⟨1, "a1@scc.test", "admin"⟩⟩
      = .respond 403 "Access denied" :=
  ⟨((verifyRole_exact_membership ["carrier"] none Sample.admin1
        ⟨1, "a1@scc.test", "admin"⟩).2.2.1 (by decide)).1,
   ((verifyRole_exact_membership ["carrier"] none Sample.admin1
        ⟨1, "a1@scc.test", "admin"⟩).2.2.2.2.2 (by decide)).1⟩

/-! ## C2: the principal resolver -/

/-- C2 as stated fails: the header `Bearer tok extra` is not of the form
`Bearer <token>`, yet with a verifier that accepts its second word both
`protect` middlewares call `next()`, and the load route behind the local one
stores a load. -/
theorem protect_accepts_trailing_words :
    isBearerForm "Bearer tok extra" = false ∧
    AuthMiddleware.protect Sample.verifyTok Sample.usersOnly
        ⟨some "Bearer tok extra", none⟩
      = .next ⟨some "Bearer tok extra", some Sample.shipper7⟩ ∧
    LoadRoutes.protect Sample.verifyTok Sample.usersOnly
        ⟨some "Bearer tok extra", none⟩
      = .next ⟨some "Bearer tok extra",
          some { id := 7, email := "s7@scc.test", role := "shipper" }⟩ ∧
    (LoadRoutes.postRoute Sample.verifyTok 60 Sample.dryLoad Sample.usersOnly
        ⟨some "Bearer tok extra", none⟩).1.status? = some 201 ∧
    (LoadRoutes.postRoute Sample.verifyTok 60 Sample.dryLoad Sample.usersOnly
        ⟨some "Bearer tok extra", none⟩).2 ≠ Sample.usersOnly := by
  decide

/-- C2, amended. Whatever the verifier does, the shared `protect` answers 401
and does not call `next()` when the header is absent, empty or does not start
with `Bearer`, and the `protect` of `loadRoutes.js` does so when the header is
absent, empty or does not start with `Bearer ` (with the space); a route
behind either then ends with the store unchanged, whatever its middlewares and
handler are. -/
theorem protect_rejects_without_bearer (verify : Option String → Option Claims)
    (s : Store) :
    (∀ req : Req User, lacksLead "Bearer" req.authorization = true →
      AuthMiddleware.protect verify s req = .respond 401 "No token provided" ∧
      ∀ (rest : List (Store → Req User → MwResult User))
        (handler : Store → Req User → Outcome × Store),
        runRoute (AuthMiddleware.protect verify :: rest) handler s req
          = (.reply 401 (.message "No token provided"), s)) ∧
    (∀ req : Req Claims, lacksLead "Bearer " req.authorization = true →
      LoadRoutes.protect verify s req = .respond 401 "No token provided" ∧
      ∀ (rest : List (Store → Req Claims → MwResult Claims))
        (handler : Store → Req Claims → Outcome × Store),
        runRoute (LoadRoutes.protect verify :: rest) handler s req
          = (.reply 401 (.message "No token provided"), s)) := by
  constructor
  · intro req h
    have key : AuthMiddleware.protect verify s req = .respond 401 "No token provided" := by
      unfold AuthMiddleware.protect
      cases hreq : req.authorization with
      | none => rfl
      | some a =>
        rw [hreq] at h
        simp only [lacksLead, Bool.or_eq_true, Bool.not_eq_true', beq_iff_eq] at h
        rcases h with h | h <;> simp [h]
    exact ⟨key, fun rest handler => runRoute_first_respond _ rest handler s req _ _ key⟩
  · intro req h
    have key : LoadRoutes.protect verify s req = .respond 401 "No token provided" := by
      unfold LoadRoutes.protect
      cases hreq : req.authorization with
      | none => rfl
      | some a =>
        rw [hreq] at h
        simp only [lacksLead, Bool.or_eq_true, Bool.not_eq_true', beq_iff_eq] at h
        rcases h with h | h <;> simp [h]
    exact ⟨key, fun rest handler => runRoute_first_respond _ rest handler s req _ _ key⟩

/-- C2, amended, at concrete inputs: a request without a header and one with a
`Basic` header are answered 401 by both middlewares. -/
theorem protect_rejects_without_bearer_witness :
    AuthMiddleware.protect Sample.verifyTok Sample.usersOnly ⟨none, none⟩
      = .respond 401 "No token provided" ∧
    LoadRoutes.protect Sample.verifyTok Sample.usersOnly ⟨some "Basic tok", none⟩
      = .respond 401 "No token provided" :=
  ⟨((protect_rejects_without_bearer Sample.verifyTok Sample.usersOnly).1
      ⟨none, none⟩ (by decide)).1,
   ((protect_rejects_without_bearer Sample.verifyTok Sample.usersOnly).2
      ⟨some "Basic tok", none⟩ (by decide)).1⟩

/-! ## C3: which routes re-fetch the user -/

/-- C3 as stated fails on the load routes: with no user 7 and no user 8 in the
store, a token that verifies for them still posts a load, rewrites a status and
deletes a load. -/
theorem load_routes_trust_claims :
    findUserById Sample.orphanLoads.users 7 = none ∧
    findUserById Sample.orphanLoads.users 8 = none ∧
    (LoadRoutes.postRoute Sample.verifyTok 60 Sample.dryLoad Sample.orphanLoads
        ⟨some "Bearer tok", none⟩).1.status? = some 201 ∧
    (LoadRoutes.postRoute Sample.verifyTok 60 Sample.dryLoad Sample.orphanLoads
        ⟨some "Bearer tok", none⟩).2.loads.length = 2 ∧
    (LoadRoutes.updateStatusRoute Sample.verifyDispatcher 60 Sample.id50 "assigned"
        Sample.orphanLoads ⟨some "Bearer tok", none⟩).1.status? = some 200 ∧
    (LoadRoutes.updateStatusRoute Sample.verifyDispatcher 60 Sample.id50 "assigned"
        Sample.orphanLoads ⟨some "Bearer tok", none⟩).2 ≠ Sample.orphanLoads ∧
    (LoadRoutes.deleteRoute Sample.verifyTok Sample.id50 Sample.orphanLoads
        ⟨some "Bearer tok", none⟩).1.status? = some 200 ∧
    (LoadRoutes.deleteRoute Sample.verifyTok Sample.id50 Sample.orphanLoads
        ⟨some "Bearer tok", none⟩).2.loads = [] := by
  decide

/-- C3, amended. On the three fleet routes (createFleet, addDriver,
removeDriver), a request whose token verifies to an id that no stored user has
is answered 401 and the store is unchanged. The three load routes (postLoad,
updateStatus, deleteLoad) do not look the user up: when the header starts with
`Bearer ` and the role in the verified claims is permitted, the handler runs
with the claims as `req.user`, whatever the User collection holds. -/
theorem fleet_routes_refetch_user (verify : Option String → Option Claims)
    (s : Store) (h : String) (decoded : Claims)
    (hv : verify (secondWord h) = some decoded)
    (hgone : findUserById s.users decoded.id = none) :
    (∀ (req : Req User), req.authorization = some h →
      (∀ now fleetName mcNumber, ∃ m,
        FleetRoutes.createRoute verify now fleetName mcNumber s req
          = (.reply 401 (.message m), s)) ∧
      (∀ now driverId, ∃ m,
        FleetRoutes.addDriverRoute verify now driverId s req
          = (.reply 401 (.message m), s)) ∧
      (∀ now driverId, ∃ m,
        FleetRoutes.removeDriverRoute verify now driverId s req
          = (.reply 401 (.message m), s))) ∧
    (∀ (req : Req Claims), req.authorization = some h →
      startsWith h "Bearer " = true →
      (decoded.role = "shipper" → ∀ now body,
        LoadRoutes.postRoute verify now body s req
          = LoadRoutes.postLoad now body s { req with user := some decoded }) ∧
      (decoded.role = "dispatcher" ∨ decoded.role = "admin" → ∀ now id status,
        LoadRoutes.updateStatusRoute verify now id status s req
          = LoadRoutes.updateStatus now id status s { req with user := some decoded }) ∧
      (decoded.role = "shipper" ∨ decoded.role = "admin" → ∀ id,
        LoadRoutes.deleteRoute verify id s req
          = LoadRoutes.deleteLoad id s { req with user := some decoded })) := by
  constructor
  · intro req hh
    obtain ⟨m, hm⟩ := protect_user_gone verify s req h decoded hh hv hgone
    refine ⟨fun _ _ _ => ⟨m, ?_⟩, fun _ _ => ⟨m, ?_⟩, fun _ _ => ⟨m, ?_⟩⟩ <;>
      exact runRoute_first_respond _ _ _ s req _ _ hm
  · intro req hh hb
    refine ⟨fun hr now body => ?_, fun hr now id status => ?_, fun hr id => ?_⟩
    · exact load_route_authorised verify _ _ s req h decoded hh hb hv (by simp [hr])
    · exact load_route_authorised verify _ _ s req h decoded hh hb hv
        (by rcases hr with hr | hr <;> simp [hr])
    · exact load_route_authorised verify _ _ s req h decoded hh hb hv
        (by rcases hr with hr | hr <;> simp [hr])

/-- C3, amended, at a concrete input: the token of user 7 against a store
without user 7 is answered 401 by `POST /api/fleet/create`, which stores
nothing. -/
theorem fleet_routes_refetch_user_witness :
    ∃ m, FleetRoutes.createRoute Sample.verifyTok 60 "North" none Sample.emptyStore
        ⟨some "Bearer tok", none⟩
      = (.reply 401 (.message m), Sample.emptyStore) :=
  ((fleet_routes_refetch_user Sample.verifyTok Sample.emptyStore "Bearer tok"
      { id := 7, email := "s7@scc.test", role := "shipper" } (by decide) (by decide)).1
    ⟨some "Bearer tok", none⟩ rfl).1 60 "North" none

/-! ## C4: no driver is listed twice -/

theorem mem_updateFirst {α : Type} (p : α → Bool) (f : α → α) (l : List α) (x : α)
    (hx : x ∈ updateFirst p f l) : x ∈ l ∨ ∃ a ∈ l, p a = true ∧ x = f a := by
  induction l with
  | nil => simp [updateFirst] at hx
  | cons a as ih =>
    by_cases hp : p a = true
    · rw [updateFirst, if_pos hp, List.mem_cons] at hx
      rcases hx with hx | hx
      · exact Or.inr ⟨a, by simp, hp, hx⟩
      · exact Or.inl (by simp [hx])
    · rw [updateFirst, if_neg hp, List.mem_cons] at hx
      rcases hx with hx | hx
      · exact Or.inl (by simp [hx])
      · rcases ih hx with h | ⟨b, hb, hpb, hxb⟩
        · exact Or.inl (by simp [h])
        · exact Or.inr ⟨b, by simp [hb], hpb, hxb⟩

theorem mem_saveFleet (fleets : List Fleet) (fleet g : Fleet)
    (hg : g ∈ saveFleet fleets fleet) : g ∈ fleets ∨ g = fleet := by
  rcases mem_updateFirst _ _ _ _ hg with h | ⟨_, _, _, h⟩
  · exact Or.inl h
  · exact Or.inr h

/-- The two ways `createFleet` ends: an error status with the store untouched,
or the name was free and not empty, the caller is set, and the new fleet is
appended. -/
theorem createFleet_cases (now : Nat) (fleetName : String)
    (mcNumber : Option String) (s : Store) (req : Req User) :
    (∃ st body, 400 ≤ st ∧
      FleetRoutes.createFleet now fleetName mcNumber s req = (.reply st body, s)) ∨
    ∃ user, req.user = some user ∧
      s.fleets.find? (fun f => f.fleetName == fleetName) = none ∧
      FleetRoutes.createFleet now fleetName mcNumber s req
        = (.reply 201 (.fleet "Fleet created successfully."
              { _id := s.nextId, fleetName := fleetName, owner := user._id,
                drivers := [user._id], mcNumber := mcNumber.getD "",
                status := "active", createdAt := now, updatedAt := now }),
            { s with
              fleets := s.fleets ++
                [{ _id := s.nextId, fleetName := fleetName, owner := user._id,
                   drivers := [user._id], mcNumber := mcNumber.getD "",
                   status := "active", createdAt := now, updatedAt := now }]
              users := setUserFleetId now s.users user._id (some s.nextId)
              nextId := s.nextId + 1 }) := by
  unfold FleetRoutes.createFleet
  split
  · exact Or.inl ⟨_, _, by decide, rfl⟩
  · split
    · exact Or.inl ⟨_, _, by decide, rfl⟩
    · split
      · exact Or.inl ⟨_, _, by decide, rfl⟩
      · exact Or.inr ⟨_, by assumption, by assumption, rfl⟩

/-- The two ways `addDriver` ends: an error status with the store untouched, or
the caller owns a fleet, `driverId` casts to the id of a stored user who is not
listed, and is appended. -/
theorem addDriver_cases (now : Nat) (driverId : String) (s : Store)
    (req : Req User) :
    (∃ st body, 400 ≤ st ∧
      FleetRoutes.addDriver now driverId s req = (.reply st body, s)) ∨
    ∃ user fleet id driver, req.user = some user ∧
      s.fleets.find? (fun f => f.owner == user._id) = some fleet ∧
      castObjectId driverId = some id ∧
      findUserById s.users id = some driver ∧
      driver._id ∉ fleet.drivers ∧
      FleetRoutes.addDriver now driverId s req
        = (.reply 200 (.fleet "Driver added successfully."
              { fleet with drivers := fleet.drivers ++ [driver._id], updatedAt := now }),
            { s with
              fleets := saveFleet s.fleets
                { fleet with drivers := fleet.drivers ++ [driver._id], updatedAt := now }
              users := setUserFleetId now s.users driver._id (some fleet._id) }) := by
  unfold FleetRoutes.addDriver
  split
  · exact Or.inl ⟨_, _, by decide, rfl⟩
  · split
    · exact Or.inl ⟨_, _, by decide, rfl⟩
    · split
      · exact Or.inl ⟨_, _, by decide, rfl⟩
      · split
        · exact Or.inl ⟨_, _, by decide, rfl⟩
        · split
          · exact Or.inl ⟨_, _, by decide, rfl⟩
          · exact Or.inr ⟨_, _, _, _, by assumption, by assumption, by assumption,
              by assumption, by simp_all, rfl⟩

theorem withoutDriver_drivers (now : Nat) (driverId : String) (fleet : Fleet) :
    (FleetRoutes.withoutDriver now driverId fleet).drivers
      = fleet.drivers.filter (fun id => hexString id != driverId) := by
  unfold FleetRoutes.withoutDriver
  split
  · next h => exact h.symm
  · rfl

theorem withoutDriver_id (now : Nat) (driverId : String) (fleet : Fleet) :
    (FleetRoutes.withoutDriver now driverId fleet)._id = fleet._id ∧
    (FleetRoutes.withoutDriver now driverId fleet).owner = fleet.owner := by
  unfold FleetRoutes.withoutDriver
  split <;> exact ⟨rfl, rfl⟩

/-- Every fleet that `removeDriver` leaves in the store was there, or is the
caller's fleet with its list filtered. -/
theorem removeDriver_fleets (now : Nat) (driverId : String) (s : Store)
    (req : Req User) (f : Fleet)
    (hf : f ∈ (FleetRoutes.removeDriver now driverId s req).2.fleets) :
    f ∈ s.fleets ∨
    ∃ fleet ∈ s.fleets, f = FleetRoutes.withoutDriver now driverId fleet := by
  unfold FleetRoutes.removeDriver at hf
  split at hf
  · exact Or.inl hf
  · split at hf
    · exact Or.inl hf
    · next user _ fleet hfleet =>
      have hmem : fleet ∈ s.fleets := List.mem_of_find?_eq_some hfleet
      have key : ∀ g ∈ (if FleetRoutes.withoutDriver now driverId fleet = fleet
            then s.fleets
            else saveFleet s.fleets (FleetRoutes.withoutDriver now driverId fleet)),
          g ∈ s.fleets ∨
          ∃ fleet ∈ s.fleets, g = FleetRoutes.withoutDriver now driverId fleet := by
        intro g hg
        split at hg
        · exact Or.inl hg
        · rcases mem_saveFleet _ _ _ hg with hg | hg
          · exact Or.inl hg
          · exact Or.inr ⟨fleet, hmem, hg⟩
      split at hf <;> exact key f hf

theorem createFleet_driversNodup (now : Nat) (fleetName : String)
    (mcNumber : Option String) (s : Store) (req : Req User) (hs : DriversNodup s) :
    DriversNodup (FleetRoutes.createFleet now fleetName mcNumber s req).2 := by
  rcases createFleet_cases now fleetName mcNumber s req with
    ⟨_, _, _, h⟩ | ⟨user, _, _, h⟩
  · rw [h]; exact hs
  · rw [h]
    intro f hf
    simp only [List.mem_append, List.mem_singleton] at hf
    rcases hf with hf | hf
    · exact hs f hf
    · rw [hf]; simp

theorem addDriver_driversNodup (now : Nat) (driverId : String) (s : Store)
    (req : Req User) (hs : DriversNodup s) :
    DriversNodup (FleetRoutes.addDriver now driverId s req).2 := by
  rcases addDriver_cases now driverId s req with
    ⟨_, _, _, h⟩ | ⟨user, fleet, id, driver, _, hfleet, _, _, hnot, h⟩
  · rw [h]; exact hs
  · rw [h]
    intro f hf
    rcases mem_saveFleet _ _ _ hf with hf | hf
    · exact hs f hf
    · rw [hf]
      have hnd := hs fleet (List.mem_of_find?_eq_some hfleet)
      exact List.Nodup.append hnd (List.nodup_singleton _) (by simpa using hnot)

theorem removeDriver_driversNodup (now : Nat) (driverId : String) (s : Store)
    (req : Req User) (hs : DriversNodup s) :
    DriversNodup (FleetRoutes.removeDriver now driverId s req).2 := by
  intro f hf
  rcases removeDriver_fleets now driverId s req f hf with hf | ⟨fleet, hmem, hf⟩
  · exact hs f hf
  · rw [hf, withoutDriver_drivers]
    exact List.Nodup.filter _ (hs fleet hmem)

theorem run_driversNodup (s : Store) (call : FleetCall)
    (hs : DriversNodup s) : DriversNodup (FleetCall.run s call) := by
  cases call with
  | createFleet now caller fleetName mcNumber =>
    exact createFleet_driversNodup now fleetName mcNumber s _ hs
  | addDriver now caller driverId => exact addDriver_driversNodup now driverId s _ hs
  | removeDriver now caller driverId =>
    exact removeDriver_driversNodup now driverId s _ hs

theorem runCalls_driversNodup (calls : List FleetCall) (s : Store)
    (hs : DriversNodup s) : DriversNodup (runCalls s calls) := by
  induction calls generalizing s with
  | nil => exact hs
  | cons call rest ih => exact ih _ (run_driversNodup s call hs)

/-- C4. From a store none of whose fleets lists a driver twice (the store with
no fleet is one), create a fleet and then run any finite sequence of calls:
`addDriver` and `removeDriver` by the owner with any path parameter, and indeed
any fleet call by any caller at any time, successful or failed. The fleet
created has its owner as only driver, and in the final store no fleet lists an
id more than once. -/
theorem fleet_drivers_nodup (now : Nat) (s : Store)
    (hs : ∀ f ∈ s.fleets, f.drivers.Nodup) (owner : User) (fleetName : String)
    (mcNumber : Option String) (calls : List FleetCall) :
    (∀ m fleet, (FleetRoutes.createFleet now fleetName mcNumber s
        ⟨none, some owner⟩).1 = .reply 201 (.fleet m fleet) →
      fleet.drivers = [owner._id]) ∧
    ∀ f ∈ (runCalls
        (FleetRoutes.createFleet now fleetName mcNumber s ⟨none, some owner⟩).2
        calls).fleets, f.drivers.Nodup := by
  constructor
  · intro m fleet h
    rcases createFleet_cases now fleetName mcNumber s ⟨none, some owner⟩ with
      ⟨st, b, hst, h2⟩ | ⟨user, huser, _, h2⟩
    · rw [h2] at h
      simp only [Outcome.reply.injEq] at h
      omega
    · have hu : owner = user := by simpa using huser
      subst hu
      rw [h2] at h
      simp only [Outcome.reply.injEq, Body.fleet.injEq, true_and] at h
      rw [← h.2]
  · exact runCalls_driversNodup calls _
      (createFleet_driversNodup now fleetName mcNumber s _ hs)

/-- C4 at a concrete input: user 1 creates a fleet and adds driver 3 twice,
removes driver 3, removes driver 2 (never added) and adds driver 3 again; the
fleet then lists 1 and 3, once each. -/
theorem fleet_drivers_nodup_witness :
    ({ _id := 100, fleetName := "North", owner := 1, drivers := [1, 3],
       mcNumber := "", status := "active", createdAt := 40, updatedAt := 45 } : Fleet) ∈
      (runCalls
        (FleetRoutes.createFleet 40 "North" none Sample.usersOnly
          ⟨none, some Sample.admin1⟩).2
        [.addDriver 41 Sample.admin1 Sample.id3, .addDriver 42 Sample.admin1 Sample.id3,
         .removeDriver 43 Sample.admin1 Sample.id3,
         .removeDriver 44 Sample.admin1 (hexString 2),
         .addDriver 45 Sample.admin1 Sample.id3]).fleets ∧
    ({ _id := 100, fleetName := "North", owner := 1, drivers := [1, 3],
       mcNumber := "", status := "active", createdAt := 40, updatedAt := 45 }
      : Fleet).drivers.Nodup :=
  ⟨by decide,
   (fleet_drivers_nodup 40 Sample.usersOnly (by simp [Sample.usersOnly])
      Sample.admin1 "North" none
      [.addDriver 41 Sample.admin1 Sample.id3, .addDriver 42 Sample.admin1 Sample.id3,
       .removeDriver 43 Sample.admin1 Sample.id3,
       .removeDriver 44 Sample.admin1 (hexString 2),
       .addDriver 45 Sample.admin1 Sample.id3]).2 _ (by decide)⟩

/-! ## C5: the mirror field -/

theorem find?_updateFirst_same {α : Type} (p : α → Bool) (f : α → α)
    (hpf : ∀ a, p (f a) = p a) (l : List α) :
    (updateFirst p f l).find? p = (l.find? p).map f := by
  induction l with
  | nil => rfl
  | cons a as ih =>
    by_cases hp : p a = true
    · rw [updateFirst, if_pos hp]
      simp [List.find?, hp, hpf]
    · rw [updateFirst, if_neg hp]
      simp [List.find?, hp, ih]

theorem find?_updateFirst_other {α : Type} (p q : α → Bool) (f : α → α)
    (hqf : ∀ a, q (f a) = q a) (hpq : ∀ a, p a = true → q a = false) (l : List α) :
    (updateFirst p f l).find? q = l.find? q := by
  induction l with
  | nil => rfl
  | cons a as ih =>
    by_cases hp : p a = true
    · rw [updateFirst, if_pos hp]
      simp [List.find?, hqf, hpq a hp]
    · rw [updateFirst, if_neg hp]
      simp [List.find?, ih]

theorem map_updateFirst {α β : Type} (g : α → β) (p : α → Bool) (f : α → α)
    (hg : ∀ a, g (f a) = g a) (l : List α) :
    (updateFirst p f l).map g = l.map g := by
  induction l with
  | nil => rfl
  | cons a as ih =>
    by_cases hp : p a = true
    · rw [updateFirst, if_pos hp]
      simp [hg]
    · rw [updateFirst, if_neg hp]
      simp [ih]

theorem find?_saveFleet_owner (fleets : List Fleet) (fleet fleet1 : Fleet)
    (o : ObjectId) (hfind : fleets.find? (fun f => f.owner == o) = some fleet)
    (hid : fleet1._id = fleet._id) (hown : fleet1.owner = o) :
    (saveFleet fleets fleet1).find? (fun f => f.owner == o) = some fleet1 := by
  unfold saveFleet
  induction fleets with
  | nil => simp at hfind
  | cons a as ih =>
    by_cases hq : (a.owner == o) = true
    · have ha : a = fleet := by simpa [List.find?, hq] using hfind
      have hp : (a._id == fleet1._id) = true := by simp [ha, hid]
      rw [updateFirst, if_pos hp]
      simp [List.find?, hown]
    · have htail : as.find? (fun f => f.owner == o) = some fleet := by
        simpa [List.find?, hq] using hfind
      by_cases hp : (a._id == fleet1._id) = true
      · rw [updateFirst, if_pos hp]
        simp [List.find?, hown]
      · rw [updateFirst, if_neg hp]
        simp only [List.find?, hq]
        exact ih htail

theorem findUserById_id (users : List User) (id : ObjectId) (u : User)
    (h : findUserById users id = some u) : u._id = id := by
  have := List.find?_some h
  simpa using this

theorem findUserById_setUserFleetId_same (now : Nat) (users : List User)
    (id : ObjectId) (v : Option ObjectId) :
    findUserById (setUserFleetId now users id v) id
      = (findUserById users id).map (fun u => { u with updatedAt := now }) := by
  unfold findUserById setUserFleetId
  exact find?_updateFirst_same (fun u : User => u._id == id)
    (fun u => { u with updatedAt := now }) (fun _ => rfl) users

theorem findUserById_setUserFleetId_other (now : Nat) (users : List User)
    (id other : ObjectId) (v : Option ObjectId) (hne : other ≠ id) :
    findUserById (setUserFleetId now users id v) other = findUserById users other := by
  unfold findUserById setUserFleetId
  apply find?_updateFirst_other (fun u : User => u._id == id)
    (fun u : User => u._id == other) (fun u => { u with updatedAt := now }) (fun _ => rfl)
  intro a ha
  have : a._id = id := by simpa using ha
  simp [this, Ne.symm hne]

/-- The update of `fleetId` stores no `fleetId`. -/
theorem setUserFleetId_fleetIds (now : Nat) (users : List User) (id : ObjectId)
    (v : Option ObjectId) :
    (setUserFleetId now users id v).map (fun u => (u._id, u.fleetId))
      = users.map (fun u => (u._id, u.fleetId)) := by
  unfold setUserFleetId
  exact map_updateFirst (fun u : User => (u._id, u.fleetId)) (fun u : User => u._id == id)
    (fun u => { u with updatedAt := now }) (fun _ => rfl) users

/-- The users `removeDriver` leaves: those of the store, or those with one
`updatedAt` stamp rewritten. -/
theorem removeDriver_users (now : Nat) (driverId : String) (s : Store)
    (req : Req User) :
    (FleetRoutes.removeDriver now driverId s req).2.users = s.users ∨
    ∃ id, castObjectId driverId = some id ∧
      (FleetRoutes.removeDriver now driverId s req).2.users
        = setUserFleetId now s.users id none := by
  unfold FleetRoutes.removeDriver
  split
  · exact Or.inl rfl
  · split
    · exact Or.inl rfl
    · split
      · exact Or.inl rfl
      · exact Or.inr ⟨_, by assumption, rfl⟩

theorem run_fleetIds (s : Store) (call : FleetCall) :
    fleetIds (FleetCall.run s call) = fleetIds s := by
  cases call with
  | createFleet now caller fleetName mcNumber =>
    rcases createFleet_cases now fleetName mcNumber s ⟨none, some caller⟩ with
      ⟨_, _, _, h⟩ | ⟨user, _, _, h⟩
    · simp only [FleetCall.run, h]
    · simp only [FleetCall.run, h, fleetIds]
      exact setUserFleetId_fleetIds now s.users _ _
  | addDriver now caller driverId =>
    rcases addDriver_cases now driverId s ⟨none, some caller⟩ with
      ⟨_, _, _, h⟩ | ⟨user, fleet, id, driver, _, _, _, _, _, h⟩
    · simp only [FleetCall.run, h]
    · simp only [FleetCall.run, h, fleetIds]
      exact setUserFleetId_fleetIds now s.users _ _
  | removeDriver now caller driverId =>
    rcases removeDriver_users now driverId s ⟨none, some caller⟩ with h | ⟨id, _, h⟩
    · simp only [FleetCall.run, fleetIds, h]
    · simp only [FleetCall.run, fleetIds, h]
      exact setUserFleetId_fleetIds now s.users _ _

theorem runCalls_fleetIds (calls : List FleetCall) (s : Store) :
    fleetIds (runCalls s calls) = fleetIds s := by
  induction calls generalizing s with
  | nil => rfl
  | cons call rest ih =>
    show fleetIds (runCalls (FleetCall.run s call) rest) = fleetIds s
    rw [ih, run_fleetIds]

/-- C5, the code at the failing input. Admin 1 creates the fleet `North` in a
store without fleets: the call is answered 201 with fleet 100, which lists
user 1 as owner and driver, and `User(1).fleetId` is still absent, so the mirror
does not hold. In general no sequence of fleet calls changes the `fleetId` of
any user: `userSchema` does not declare the path, and the three updates that
name it store nothing but an `updatedAt` stamp. -/
theorem createFleet_leaves_owner_unlinked :
    (FleetRoutes.createFleet 40 "North" none Sample.usersOnly
        ⟨none, some Sample.admin1⟩).1
      = .reply 201 (.fleet "Fleet created successfully."
          { _id := 100, fleetName := "North", owner := 1, drivers := [1],
            mcNumber := "", status := "active", createdAt := 40, updatedAt := 40 }) ∧
    (findUserById (FleetRoutes.createFleet 40 "North" none Sample.usersOnly
        ⟨none, some Sample.admin1⟩).2.users 1).map (fun u => u.fleetId) = some none ∧
    mirrorConsistent (FleetRoutes.createFleet 40 "North" none Sample.usersOnly
        ⟨none, some Sample.admin1⟩).2 = false ∧
    mirrorConsistent (runCalls Sample.usersOnly Sample.twoFleets) = false ∧
    ∀ (s : Store) (calls : List FleetCall), fleetIds (runCalls s calls) = fleetIds s :=
  ⟨by decide, by decide, by decide, by decide, fun s calls => runCalls_fleetIds calls s⟩

/-! ## C6 and C7: `PATCH /:id/status` -/

theorem updateStatus_found (now : Nat) (id : String) (oid : ObjectId)
    (status : String) (s : Store) (req : Req Claims) (load : Load)
    (hcast : castObjectId id = some oid)
    (hfind : s.loads.find? (fun l => l._id == oid) = some load) :
    LoadRoutes.updateStatus now id status s req
      = (.reply 200 (.load "✅ Load status updated"
            { load with status := status, updatedAt := now }),
          { s with
            loads := updateFirst (fun l => l._id == oid)
              (fun l => { l with status := status, updatedAt := now }) s.loads }) := by
  simp only [LoadRoutes.updateStatus, hcast, hfind]

theorem updateStatus_stored (now : Nat) (id : String) (oid : ObjectId)
    (status : String) (s : Store) (req : Req Claims) (load : Load)
    (hcast : castObjectId id = some oid)
    (hfind : s.loads.find? (fun l => l._id == oid) = some load) :
    (LoadRoutes.updateStatus now id status s req).2.loads.find? (fun l => l._id == oid)
      = some { load with status := status, updatedAt := now } := by
  rw [updateStatus_found now id oid status s req load hcast hfind]
  show (updateFirst (fun l : Load => l._id == oid)
    (fun l => { l with status := status, updatedAt := now }) s.loads).find?
      (fun l => l._id == oid) = _
  rw [find?_updateFirst_same (fun l : Load => l._id == oid)
    (fun l => { l with status := status, updatedAt := now }) (fun _ => rfl), hfind]
  rfl

/-- C6 as stated fails: load 50 is `delivered`, and a dispatcher's
`updateStatus(50, "in_transit")` is answered 200 and stores `in_transit`. -/
theorem delivered_is_not_terminal :
    Sample.orphanLoads.loads.map (fun l => (l._id, l.status)) = [(50, "delivered")] ∧
    (LoadRoutes.updateStatusRoute Sample.verifyDispatcher 60 Sample.id50 "in_transit"
        Sample.orphanLoads ⟨some "Bearer tok", none⟩).1.status? = some 200 ∧
    (LoadRoutes.updateStatusRoute Sample.verifyDispatcher 60 Sample.id50 "in_transit"
        Sample.orphanLoads ⟨some "Bearer tok", none⟩).2.loads.map
          (fun l => (l._id, l.status)) = [(50, "in_transit")] := by
  decide

/-- C6, amended. `updateStatus` checks no transition: for an existing load in
any status, `delivered` and `cancelled` included, a call by a dispatcher or
admin with any `newStatus` is answered 200 with the load carrying `newStatus`
(and the time of the call as `updatedAt`), which is what the store then holds.
So the sequence `assigned`, `in_transit`, `delivered` succeeds at each step,
and so does `in_transit` after `delivered`. -/
theorem updateStatus_any_to_any (verify : Option String → Option Claims) (s : Store)
    (req : Req Claims) (h : String) (c : Claims)
    (hh : req.authorization = some h) (hb : startsWith h "Bearer " = true)
    (hv : verify (secondWord h) = some c)
    (hr : c.role = "dispatcher" ∨ c.role = "admin")
    (id : String) (oid : ObjectId) (load : Load)
    (hcast : castObjectId id = some oid)
    (hfind : s.loads.find? (fun l => l._id == oid) = some load) :
    (∀ now newStatus,
      (LoadRoutes.updateStatusRoute verify now id newStatus s req).1
        = .reply 200 (.load "✅ Load status updated"
            { load with status := newStatus, updatedAt := now }) ∧
      (LoadRoutes.updateStatusRoute verify now id newStatus s req).2.loads.find?
          (fun l => l._id == oid)
        = some { load with status := newStatus, updatedAt := now }) ∧
    ∀ t1 t2 t3 t4,
      (LoadRoutes.updateStatusRoute verify t1 id "assigned" s req).1
        = .reply 200 (.load "✅ Load status updated"
            { load with status := "assigned", updatedAt := t1 }) ∧
      (LoadRoutes.updateStatusRoute verify t2 id "in_transit"
          (LoadRoutes.updateStatusRoute verify t1 id "assigned" s req).2 req).1
        = .reply 200 (.load "✅ Load status updated"
            { load with status := "in_transit", updatedAt := t2 }) ∧
      (LoadRoutes.updateStatusRoute verify t3 id "delivered"
          (LoadRoutes.updateStatusRoute verify t2 id "in_transit"
            (LoadRoutes.updateStatusRoute verify t1 id "assigned" s req).2 req).2 req).1
        = .reply 200 (.load "✅ Load status updated"
            { load with status := "delivered", updatedAt := t3 }) ∧
      (LoadRoutes.updateStatusRoute verify t4 id "in_transit"
          (LoadRoutes.updateStatusRoute verify t3 id "delivered"
            (LoadRoutes.updateStatusRoute verify t2 id "in_transit"
              (LoadRoutes.updateStatusRoute verify t1 id "assigned" s req).2 req).2
            req).2 req).1
        = .reply 200 (.load "✅ Load status updated"
            { load with status := "in_transit", updatedAt := t4 }) := by
  have hrole : c.role ∈ ["dispatcher", "admin"] := by
    rcases hr with hr | hr <;> simp [hr]
  have step : ∀ (now : Nat) (t : Store) (l : Load) (newStatus : String),
      t.loads.find? (fun l => l._id == oid) = some l →
      (LoadRoutes.updateStatusRoute verify now id newStatus t req).1
        = .reply 200 (.load "✅ Load status updated"
            { l with status := newStatus, updatedAt := now }) ∧
      (LoadRoutes.updateStatusRoute verify now id newStatus t req).2.loads.find?
          (fun l => l._id == oid)
        = some { l with status := newStatus, updatedAt := now } := by
    intro now t l newStatus hl
    have hroute : LoadRoutes.updateStatusRoute verify now id newStatus t req
        = LoadRoutes.updateStatus now id newStatus t { req with user := some c } :=
      load_route_authorised verify _ _ t req h c hh hb hv hrole
    rw [hroute]
    exact ⟨by rw [updateStatus_found now id oid newStatus t _ l hcast hl],
      updateStatus_stored now id oid newStatus t _ l hcast hl⟩
  refine ⟨fun now newStatus => step now s load newStatus hfind, ?_⟩
  intro t1 t2 t3 t4
  have h1 := step t1 s load "assigned" hfind
  have h2 := step t2 _ _ "in_transit" h1.2
  have h3 := step t3 _ _ "delivered" h2.2
  have h4 := step t4 _ _ "in_transit" h3.2
  exact ⟨h1.1, h2.1, h3.1, h4.1⟩

/-- C6, amended, at a concrete input: the delivered load 50 is set to
`in_transit` by a dispatcher. -/
theorem updateStatus_any_to_any_witness :
    (LoadRoutes.updateStatusRoute Sample.verifyDispatcher 60 Sample.id50 "in_transit"
        Sample.orphanLoads ⟨some "Bearer tok", none⟩).1
      = .reply 200 (.load "✅ Load status updated"
          { Sample.load50 with status := "in_transit", updatedAt := 60 }) :=
  ((updateStatus_any_to_any Sample.verifyDispatcher Sample.orphanLoads
      ⟨some "Bearer tok", none⟩ "Bearer tok"
      { id := 8, email := "d8@scc.test", role := "dispatcher" } rfl (by decide)
      (by decide) (Or.inl rfl) Sample.id50 50 Sample.load50 (by decide)
      (by decide)).1 60 "in_transit").1

theorem find?_eq_none_of_all_ne (loads : List Load) (id : ObjectId)
    (h : ∀ l ∈ loads, l._id ≠ id) : loads.find? (fun l => l._id == id) = none := by
  rw [List.find?_eq_none]
  intro l hl
  simpa using h l hl

theorem find?_split (pre post : List Load) (load : Load) (id : ObjectId)
    (hid : load._id = id) (hpre : ∀ l ∈ pre, l._id ≠ id) :
    (pre ++ load :: post).find? (fun l => l._id == id) = some load := by
  induction pre with
  | nil => simp [List.find?, hid]
  | cons a as ih =>
    have ha : (a._id == id) = false := by simpa using hpre a (by simp)
    simp only [List.cons_append, List.find?, ha]
    exact ih (fun l hl => hpre l (by simp [hl]))

theorem updateFirst_split (f : Load → Load) (pre post : List Load) (load : Load)
    (id : ObjectId) (hid : load._id = id) (hpre : ∀ l ∈ pre, l._id ≠ id) :
    updateFirst (fun l => l._id == id) f (pre ++ load :: post)
      = pre ++ f load :: post := by
  induction pre with
  | nil => simp [updateFirst, hid]
  | cons a as ih =>
    have ha : (a._id == id) = false := by simpa using hpre a (by simp)
    have hne : ¬ ((a._id == id) = true) := by simp [ha]
    rw [List.cons_append, updateFirst, if_neg hne,
      ih (fun l hl => hpre l (by simp [hl]))]
    rfl

/-- C7 as stated fails twice over. No load has `50` as the string of its id,
yet `PATCH /50/status` is answered 500, not 404: `50` is not the string of any
`ObjectId` and the query throws. And when the load exists (path parameter
`000000000000000000000032`), the stored load differs from the old one in `status`
and also in `updatedAt`, 30 before and the time of the call after. -/
theorem updateStatus_not_only_404_and_status :
    Sample.orphanLoads.loads.all (fun l => hexString l._id != "50") = true ∧
    LoadRoutes.updateStatusRoute Sample.verifyDispatcher 60 "50" "assigned"
        Sample.orphanLoads ⟨some "Bearer tok", none⟩
      = (.reply 500 (.error castError), Sample.orphanLoads) ∧
    Sample.orphanLoads.loads.map (fun l => (hexString l._id, l.status, l.updatedAt))
      = [("000000000000000000000032", "delivered", 30)] ∧
    (LoadRoutes.updateStatusRoute Sample.verifyDispatcher 60
        "000000000000000000000032" "assigned" Sample.orphanLoads
        ⟨some "Bearer tok", none⟩).1.status? = some 200 ∧
    (LoadRoutes.updateStatusRoute Sample.verifyDispatcher 60
        "000000000000000000000032" "assigned" Sample.orphanLoads
        ⟨some "Bearer tok", none⟩).2.loads.map
          (fun l => (hexString l._id, l.status, l.updatedAt))
      = [("000000000000000000000032", "assigned", 60)] := by
  decide

/-- C7, amended. For every store, every dispatcher or admin principal, every
path parameter `loadId` and every `newStatus`, at time `now`: if `loadId` is not
a string of 24 hex digits, `updateStatus` answers 500 and the store is
unchanged; if it is and no load has the id it denotes, it answers 404 and the
store is unchanged; if a load has (the collection is `pre ++ load :: post` with
`load` the document of that id), it answers 200 with `load` carrying `newStatus`
and `updatedAt = now`, all its other fields unchanged, and the store differs
only in that document. -/
theorem updateStatus_frame (verify : Option String → Option Claims) (s : Store)
    (req : Req Claims) (h : String) (c : Claims)
    (hh : req.authorization = some h) (hb : startsWith h "Bearer " = true)
    (hv : verify (secondWord h) = some c)
    (hr : c.role = "dispatcher" ∨ c.role = "admin")
    (now : Nat) (loadId : String) (newStatus : String) :
    (castObjectId loadId = none →
      LoadRoutes.updateStatusRoute verify now loadId newStatus s req
        = (.reply 500 (.error castError), s)) ∧
    (∀ oid, castObjectId loadId = some oid →
      ((∀ l ∈ s.loads, l._id ≠ oid) →
        LoadRoutes.updateStatusRoute verify now loadId newStatus s req
          = (.reply 404 (.message "Load not found"), s)) ∧
      (∀ pre load post, s.loads = pre ++ load :: post → load._id = oid →
        (∀ l ∈ pre, l._id ≠ oid) →
        LoadRoutes.updateStatusRoute verify now loadId newStatus s req
          = (.reply 200 (.load "✅ Load status updated"
                { load with status := newStatus, updatedAt := now }),
              { s with
                loads := pre ++ { load with status := newStatus, updatedAt := now }
                  :: post }) ∧
        ({ load with status := newStatus, updatedAt := now } : Load).status
          = newStatus ∧
        ({ load with status := newStatus, updatedAt := now } : Load).updatedAt = now ∧
        ({ load with status := newStatus, updatedAt := now } : Load)._id = load._id ∧
        ({ load with status := newStatus, updatedAt := now } : Load).shipperId
          = load.shipperId ∧
        ({ load with status := newStatus, updatedAt := now } : Load).shipperName
          = load.shipperName ∧
        ({ load with status := newStatus, updatedAt := now } : Load).origin
          = load.origin ∧
        ({ load with status := newStatus, updatedAt := now } : Load).destination
          = load.destination ∧
        ({ load with status := newStatus, updatedAt := now } : Load).cargoType
          = load.cargoType ∧
        ({ load with status := newStatus, updatedAt := now } : Load).weight
          = load.weight ∧
        ({ load with status := newStatus, updatedAt := now } : Load).price
          = load.price ∧
        ({ load with status := newStatus, updatedAt := now } : Load).pickupDate
          = load.pickupDate ∧
        ({ load with status := newStatus, updatedAt := now } : Load).deliveryDate
          = load.deliveryDate ∧
        ({ load with status := newStatus, updatedAt := now } : Load).createdAt
          = load.createdAt)) := by
  have hrole : c.role ∈ ["dispatcher", "admin"] := by
    rcases hr with hr | hr <;> simp [hr]
  have hroute : LoadRoutes.updateStatusRoute verify now loadId newStatus s req
      = LoadRoutes.updateStatus now loadId newStatus s { req with user := some c } :=
    load_route_authorised verify _ _ s req h c hh hb hv hrole
  refine ⟨?_, ?_⟩
  · intro hcast
    rw [hroute]
    simp only [LoadRoutes.updateStatus, hcast]
  · intro oid hcast
    constructor
    · intro hnone
      rw [hroute]
      simp only [LoadRoutes.updateStatus, hcast,
        find?_eq_none_of_all_ne s.loads oid hnone]
    · intro pre load post hs hid hpre
      refine ⟨?_, rfl, rfl, rfl, rfl, rfl, rfl, rfl, rfl, rfl, rfl, rfl, rfl, rfl⟩
      have hfind : s.loads.find? (fun l => l._id == oid) = some load := by
        rw [hs]; exact find?_split pre post load oid hid hpre
      rw [hroute, updateStatus_found now loadId oid newStatus s _ load hcast hfind, hs,
        updateFirst_split _ pre post load oid hid hpre]

/-- C7, amended, at a concrete input: a dispatcher sets load 50, the only load,
to `assigned` at time 60. -/
theorem updateStatus_frame_witness :
    LoadRoutes.updateStatusRoute Sample.verifyDispatcher 60 Sample.id50 "assigned"
        Sample.orphanLoads ⟨some "Bearer tok", none⟩
      = (.reply 200 (.load "✅ Load status updated"
            { Sample.load50 with status := "assigned", updatedAt := 60 }),
          { Sample.orphanLoads with
            loads := [] ++ { Sample.load50 with status := "assigned", updatedAt := 60 }
              :: [] }) :=
  (((updateStatus_frame Sample.verifyDispatcher Sample.orphanLoads
      ⟨some "Bearer tok", none⟩ "Bearer tok"
      { id := 8, email := "d8@scc.test", role := "dispatcher" } rfl (by decide)
      (by decide) (Or.inl rfl) 60 Sample.id50 "assigned").2 50 (by decide)).2
      [] Sample.load50 [] rfl rfl (by simp)).1

/-! ## C8: `POST /` -/

/-- C8 as stated fails: the load posted by shipper 7 with the body of the
end-to-end scenario comes back with status `pending`, not `posted`. -/
theorem posted_load_is_pending :
    (LoadRoutes.postRoute Sample.verifyTok 60 Sample.dryLoad Sample.usersOnly
        ⟨some "Bearer tok", none⟩).1
      = .reply 201 (.load "✅ Load posted successfully"
          { _id := 100, shipperId := 7, shipperName := some "s7@scc.test",
            origin := "A", destination := "B", cargoType := "dry", weight := 1000,
            price := 500, pickupDate := 20250101, deliveryDate := none,
            status := "pending", createdAt := 60, updatedAt := 60 }) ∧
    ("pending" : String) ≠ "posted" := by
  decide

/-- C8, amended. For every shipper principal and every body whose required
fields (`origin`, `destination`, `cargoType`, `weight`, `price`, `pickupDate`)
are present, `postLoad` answers 201 with a load of status `pending`, whose
`shipperId` is the `id` of the caller's claims and whose `shipperName` is their
`email`, with the fields of the body and the time of the call as both stamps;
the load is appended to the collection. The document has no `carrier` path. -/
theorem postLoad_initial_state (verify : Option String → Option Claims) (s : Store)
    (req : Req Claims) (h : String) (c : Claims)
    (hh : req.authorization = some h) (hb : startsWith h "Bearer " = true)
    (hv : verify (secondWord h) = some c) (hr : c.role = "shipper")
    (now : Nat) (body : LoadRoutes.LoadFields) (origin destination cargoType : String)
    (weight price : Int) (pickupDate : Nat)
    (ho : LoadRoutes.requiredString body.origin = some origin)
    (hd : LoadRoutes.requiredString body.destination = some destination)
    (hc : LoadRoutes.requiredString body.cargoType = some cargoType)
    (hw : body.weight = some weight) (hp : body.price = some price)
    (hpd : body.pickupDate = some pickupDate) :
    ∃ load : Load,
      LoadRoutes.postRoute verify now body s req
        = (.reply 201 (.load "✅ Load posted successfully" load),
            { s with loads := s.loads ++ [load], nextId := s.nextId + 1 }) ∧
      load.status = "pending" ∧ load.shipperId = c.id ∧
      load.shipperName = some c.email ∧ load._id = s.nextId ∧
      load.origin = origin ∧ load.destination = destination ∧
      load.cargoType = cargoType ∧ load.weight = weight ∧ load.price = price ∧
      load.pickupDate = pickupDate ∧ load.deliveryDate = body.deliveryDate ∧
      load.createdAt = now ∧ load.updatedAt = now := by
  have hroute : LoadRoutes.postRoute verify now body s req
      = LoadRoutes.postLoad now body s { req with user := some c } :=
    load_route_authorised verify _ _ s req h c hh hb hv (by simp [hr])
  refine ⟨{ _id := s.nextId, shipperId := c.id, shipperName := some c.email,
            origin := origin, destination := destination, cargoType := cargoType,
            weight := weight, price := price, pickupDate := pickupDate,
            deliveryDate := body.deliveryDate, status := "pending",
            createdAt := now, updatedAt := now }, ?_,
    rfl, rfl, rfl, rfl, rfl, rfl, rfl, rfl, rfl, rfl, rfl, rfl, rfl⟩
  rw [hroute]
  simp only [LoadRoutes.postLoad, ho, hd, hc, hw, hp, hpd]

/-- C8, amended, at a concrete input: shipper 7 posts the load of the
end-to-end scenario. -/
theorem postLoad_initial_state_witness :
    ∃ load : Load,
      LoadRoutes.postRoute Sample.verifyTok 60 Sample.dryLoad Sample.usersOnly
          ⟨some "Bearer tok", none⟩
        = (.reply 201 (.load "✅ Load posted successfully" load),
            { Sample.usersOnly with
              loads := Sample.usersOnly.loads ++ [load],
              nextId := Sample.usersOnly.nextId + 1 }) ∧
      load.status = "pending" ∧ load.shipperId = 7 ∧
      load.shipperName = some "s7@scc.test" ∧ load._id = 100 ∧
      load.origin = "A" ∧ load.destination = "B" ∧
      load.cargoType = "dry" ∧ load.weight = 1000 ∧ load.price = 500 ∧
      load.pickupDate = 20250101 ∧ load.deliveryDate = none ∧
      load.createdAt = 60 ∧ load.updatedAt = 60 :=
  postLoad_initial_state Sample.verifyTok Sample.usersOnly ⟨some "Bearer tok", none⟩
    "Bearer tok" { id := 7, email := "s7@scc.test", role := "shipper" } rfl
    (by decide) (by decide) rfl 60 Sample.dryLoad "A" "B" "dry" 1000 500 20250101
    (by decide) (by decide) (by decide) rfl rfl rfl

/-! ## C9: `createFleet` with a name in use -/

theorem runRoute_store_unchanged {P : Type}
    (handler : Store → Req P → Outcome × Store) (s : Store)
    (hh : ∀ req, (handler s req).2 = s)
    (mws : List (Store → Req P → MwResult P)) (req : Req P) :
    (runRoute mws handler s req).2 = s := by
  induction mws generalizing req with
  | nil => exact hh req
  | cons mw rest ih =>
    unfold runRoute
    cases mw s req with
    | next req1 => exact ih req1
    | respond st m => rfl
    | throws => rfl

theorem find?_name_some (fleets : List Fleet) (fleetName : String)
    (hdup : ∃ f ∈ fleets, f.fleetName = fleetName) :
    ∃ g, fleets.find? (fun f => f.fleetName == fleetName) = some g := by
  obtain ⟨f, hf, hname⟩ := hdup
  cases hfind : fleets.find? (fun f => f.fleetName == fleetName) with
  | some g => exact ⟨g, rfl⟩
  | none =>
    rw [List.find?_eq_none] at hfind
    exact absurd (by simpa using hname) (hfind f hf)

/-- C9. For every store that holds a fleet whose `fleetName` equals the
requested one: the handler of `createFleet` answers 400 `Fleet name already
exists.` and returns the store as it was, for every request; so does the route
for every authorised caller (a live user with role `admin` or `dispatcher`);
and for every request whatever, the route leaves the store, fleets and user
documents, unchanged. -/
theorem createFleet_duplicate_name (verify : Option String → Option Claims)
    (now : Nat) (s : Store) (fleetName : String) (mcNumber : Option String)
    (hdup : ∃ f ∈ s.fleets, f.fleetName = fleetName) :
    (∀ req, FleetRoutes.createFleet now fleetName mcNumber s req
      = (.reply 400 (.message "Fleet name already exists."), s)) ∧
    (∀ req h c u, req.authorization = some h → startsWith h "Bearer" = true →
      verify (secondWord h) = some c → findUserById s.users c.id = some u →
      u.role ∈ ["admin", "dispatcher"] →
      FleetRoutes.createRoute verify now fleetName mcNumber s req
        = (.reply 400 (.message "Fleet name already exists."), s)) ∧
    (∀ req, (FleetRoutes.createRoute verify now fleetName mcNumber s req).2 = s) := by
  obtain ⟨g, hg⟩ := find?_name_some s.fleets fleetName hdup
  have hhandler : ∀ req, FleetRoutes.createFleet now fleetName mcNumber s req
      = (.reply 400 (.message "Fleet name already exists."), s) := by
    intro req
    simp only [FleetRoutes.createFleet, hg]
  refine ⟨hhandler, ?_, ?_⟩
  · intro req h c u hh hb hv hu hr
    unfold FleetRoutes.createRoute
    rw [fleet_route_authorised verify _ s req h c u hh hb hv hu hr]
    exact hhandler _
  · intro req
    exact runRoute_store_unchanged _ s (fun r => by rw [hhandler r]) _ req

/-- C9 at a concrete input: fleet `North` exists, and the dispatcher 2 asks for
a fleet of that name. -/
theorem createFleet_duplicate_name_witness :
    FleetRoutes.createRoute Sample.verifyDan 60 "North" none Sample.withNorth
        ⟨some "Bearer tok", none⟩
      = (.reply 400 (.message "Fleet name already exists."), Sample.withNorth) :=
  (createFleet_duplicate_name Sample.verifyDan 60 Sample.withNorth "North" none
    (by decide)).2.1 ⟨some "Bearer tok", none⟩ "Bearer tok"
    { id := 2, email := "d2@scc.test", role := "dispatcher" }
    Sample.dispatcher2 rfl (by decide) (by decide) (by decide) (by decide)

/-! ## C10: `addDriver` twice -/

theorem findUserById_setUserFleetId_some (now : Nat) (users : List User)
    (id d : ObjectId) (v : Option ObjectId) (u : User)
    (hu : findUserById users d = some u) :
    ∃ u2, findUserById (setUserFleetId now users id v) d = some u2 ∧ u2._id = d := by
  have hid : u._id = d := findUserById_id users d u hu
  by_cases hd : d = id
  · subst hd
    exact ⟨{ u with updatedAt := now },
      by rw [findUserById_setUserFleetId_same, hu]; rfl, hid⟩
  · exact ⟨u, by rw [findUserById_setUserFleetId_other now users id d v hd, hu], hid⟩

/-- C10. If `addDriver(owner, driverId)` succeeds, then the same call made
after it, at any time (by the owner, fetched again or not), is answered 400
`Driver already in fleet.`, and returns the store, fleets and user documents,
exactly as the first call left it. -/
theorem addDriver_twice (now : Nat) (s s1 : Store) (owner : User)
    (authorization : Option String) (driverId : String) (body : Body)
    (h1 : FleetRoutes.addDriver now driverId s ⟨authorization, some owner⟩
      = (.reply 200 body, s1)) :
    ∀ (now2 : Nat) (authorization2 : Option String) (owner2 : User),
      owner2._id = owner._id →
      FleetRoutes.addDriver now2 driverId s1 ⟨authorization2, some owner2⟩
        = (.reply 400 (.message "Driver already in fleet."), s1) := by
  intro now2 authorization2 owner2 hsame
  rcases addDriver_cases now driverId s ⟨authorization, some owner⟩ with
    ⟨st, b, hst, h2⟩ | ⟨user, fleet, id, driver, huser, hfleet, hcast, hdriver, hnot, h2⟩
  · rw [h2] at h1
    simp only [Prod.mk.injEq, Outcome.reply.injEq] at h1
    omega
  · have hu : owner = user := by simpa using huser
    subst hu
    have hd : driver._id = id := findUserById_id _ _ _ hdriver
    subst hd
    rw [h2] at h1
    simp only [Prod.mk.injEq, Outcome.reply.injEq, true_and] at h1
    obtain ⟨_, hs1⟩ := h1
    have hfleet1 : s1.fleets.find? (fun f => f.owner == owner2._id)
        = some { fleet with
            drivers := fleet.drivers ++ [driver._id], updatedAt := now } := by
      rw [← hs1, hsame]
      exact find?_saveFleet_owner _ fleet _ _ hfleet rfl
        (by simpa using (List.find?_some hfleet))
    obtain ⟨u2, hu2, hu2id⟩ : ∃ u2, findUserById s1.users driver._id = some u2 ∧
        u2._id = driver._id := by
      rw [← hs1]
      exact findUserById_setUserFleetId_some now s.users driver._id driver._id
        (some fleet._id) driver hdriver
    simp [FleetRoutes.addDriver, hfleet1, hcast, hu2, hu2id]

/-- C10 at a concrete input: user 1, owner of fleet `North`, adds driver 3
twice. -/
theorem addDriver_twice_witness :
    FleetRoutes.addDriver 61 Sample.id3
        (FleetRoutes.addDriver 60 Sample.id3 Sample.withNorth
          ⟨none, some Sample.admin1⟩).2
        ⟨none, some Sample.admin1⟩
      = (.reply 400 (.message "Driver already in fleet."),
          (FleetRoutes.addDriver 60 Sample.id3 Sample.withNorth
            ⟨none, some Sample.admin1⟩).2) :=
  addDriver_twice 60 Sample.withNorth _ Sample.admin1 none Sample.id3
    (.fleet "Driver added successfully."
      { _id := 100, fleetName := "North", owner := 1, drivers := [1, 3],
        mcNumber := "", status := "active", createdAt := 40, updatedAt := 60 })
    (by decide) 61 none Sample.admin1 rfl

/-! ## C11: `removeDriver` on a non-member, and twice -/

theorem updateFirst_idem {α : Type} (p : α → Bool) (f : α → α)
    (hf : ∀ a, p a = true → p (f a) = true ∧ f (f a) = f a) (l : List α) :
    updateFirst p f (updateFirst p f l) = updateFirst p f l := by
  induction l with
  | nil => rfl
  | cons a as ih =>
    by_cases hp : p a = true
    · rw [updateFirst, if_pos hp, updateFirst, if_pos (hf a hp).1, (hf a hp).2]
    · rw [updateFirst, if_neg hp, updateFirst, if_neg hp, ih]

theorem setUserFleetId_idem (now : Nat) (users : List User) (id : ObjectId)
    (v : Option ObjectId) :
    setUserFleetId now (setUserFleetId now users id v) id v
      = setUserFleetId now users id v := by
  unfold setUserFleetId
  exact updateFirst_idem (fun u : User => u._id == id)
    (fun u => { u with updatedAt := now }) (fun _ ha => ⟨ha, rfl⟩) users

theorem withoutDriver_of_no_match (now : Nat) (driverId : String) (fleet : Fleet)
    (h : ∀ d ∈ fleet.drivers, hexString d ≠ driverId) :
    FleetRoutes.withoutDriver now driverId fleet = fleet := by
  have hfilter : fleet.drivers.filter (fun id => hexString id != driverId)
      = fleet.drivers := by
    rw [List.filter_eq_self]
    intro a ha
    simpa using h a ha
  unfold FleetRoutes.withoutDriver
  rw [if_pos hfilter]

theorem withoutDriver_idem (now now2 : Nat) (driverId : String) (fleet : Fleet) :
    FleetRoutes.withoutDriver now2 driverId (FleetRoutes.withoutDriver now driverId fleet)
      = FleetRoutes.withoutDriver now driverId fleet := by
  apply withoutDriver_of_no_match
  intro d hd
  rw [withoutDriver_drivers, List.mem_filter] at hd
  simpa using hd.2

/-- No driver is spelled `driverId` when `driverId` denotes an id that is not
in the list, the ids of the list being below `16 ^ 24`. -/
theorem no_match_of_not_mem (driverId : String) (id : ObjectId)
    (drivers : List ObjectId) (hcast : castObjectId driverId = some id)
    (hnot : id ∉ drivers) (hlt : ∀ d ∈ drivers, d < 16 ^ 24) :
    ∀ d ∈ drivers, hexString d ≠ driverId := by
  intro d hd heq
  have : d = id := eq_of_hexString_eq driverId id d hcast (hlt d hd) heq
  exact hnot (this ▸ hd)

theorem removeDriver_found (now : Nat) (driverId : String) (s : Store)
    (authorization : Option String) (owner : User) (fleet : Fleet) (id : ObjectId)
    (hfleet : s.fleets.find? (fun f => f.owner == owner._id) = some fleet)
    (hcast : castObjectId driverId = some id) :
    FleetRoutes.removeDriver now driverId s ⟨authorization, some owner⟩
      = (.reply 200 (.fleet "Driver removed successfully."
            (FleetRoutes.withoutDriver now driverId fleet)),
          { s with
            fleets :=
              if FleetRoutes.withoutDriver now driverId fleet = fleet then s.fleets
              else saveFleet s.fleets (FleetRoutes.withoutDriver now driverId fleet)
            users := setUserFleetId now s.users id none }) := by
  simp only [FleetRoutes.removeDriver, hfleet, hcast]

theorem removeDriver_uncastable (now : Nat) (driverId : String) (s : Store)
    (authorization : Option String) (owner : User) (fleet : Fleet)
    (hfleet : s.fleets.find? (fun f => f.owner == owner._id) = some fleet)
    (hcast : castObjectId driverId = none) :
    FleetRoutes.removeDriver now driverId s ⟨authorization, some owner⟩
      = (.reply 500 (.error castError), s) := by
  have hsame : FleetRoutes.withoutDriver now driverId fleet = fleet :=
    withoutDriver_of_no_match now driverId fleet
      (fun d _ => hexString_ne_of_uncastable driverId hcast d)
  simp only [FleetRoutes.removeDriver, hfleet, hcast, hsame, if_true]

/-- The fleet of the owner after `removeDriver` is the filtered fleet. -/
theorem removeDriver_owner_fleet (now : Nat) (driverId : String) (s : Store)
    (fleet : Fleet) (o : ObjectId)
    (hfleet : s.fleets.find? (fun f => f.owner == o) = some fleet) :
    (if FleetRoutes.withoutDriver now driverId fleet = fleet then s.fleets
      else saveFleet s.fleets (FleetRoutes.withoutDriver now driverId fleet)).find?
        (fun f => f.owner == o)
      = some (FleetRoutes.withoutDriver now driverId fleet) := by
  have hown : fleet.owner = o := by simpa using (List.find?_some hfleet)
  split
  · next h => rw [h]; exact hfleet
  · exact find?_saveFleet_owner _ fleet _ _ hfleet
      (withoutDriver_id now driverId fleet).1
      ((withoutDriver_id now driverId fleet).2.trans hown)

/-- C11 as stated fails. `removeDriver` does not succeed for every `driverId`:
user 1 owns a fleet, and `PUT /remove-driver/50` is answered 500, because `50`
is not the string of any `ObjectId`. And removing a non-member changes a user
record: driver 3 is not in fleet 101 of user 2; `removeDriver(user 2, 3)` is
answered 200, leaves the fleets and every `fleetId` as they were, and rewrites
the `updatedAt` of user 3 from 42 to the time of the call. -/
theorem removeDriver_fails_or_stamps :
    (Sample.withNorth.fleets.map (fun f => (f._id, f.owner, f.drivers))
      = [(100, 1, [1])]) ∧
    FleetRoutes.removeDriver 60 "50" Sample.withNorth ⟨none, some Sample.admin1⟩
      = (.reply 500 (.error castError), Sample.withNorth) ∧
    Sample.northSouth.fleets.map (fun f => (f._id, f.owner, f.drivers))
      = [(100, 1, [1, 3]), (101, 2, [2])] ∧
    (FleetRoutes.removeDriver 60 Sample.id3 Sample.northSouth
        ⟨none, some Sample.dispatcher2⟩).1.status? = some 200 ∧
    (FleetRoutes.removeDriver 60 Sample.id3 Sample.northSouth
        ⟨none, some Sample.dispatcher2⟩).2.fleets = Sample.northSouth.fleets ∧
    fleetIds (FleetRoutes.removeDriver 60 Sample.id3 Sample.northSouth
        ⟨none, some Sample.dispatcher2⟩).2 = fleetIds Sample.northSouth ∧
    (findUserById Sample.northSouth.users 3).map (fun u => u.updatedAt) = some 42 ∧
    (findUserById (FleetRoutes.removeDriver 60 Sample.id3 Sample.northSouth
        ⟨none, some Sample.dispatcher2⟩).2.users 3).map (fun u => u.updatedAt)
      = some 60 := by
  decide

/-- C11, amended. For every owner with a fleet and every path parameter
`driverId`, at time `now`: if `driverId` is not a string of 24 hex digits,
`removeDriver` answers 500 and the store is unchanged. If it is, the call is
answered 200 with the owner's fleet as the store then holds it; no user's
`fleetId` changes, the records of all users other than `User(driverId)` are
unchanged, and that of `User(driverId)` changes in its `updatedAt` stamp only,
member or not. If `driverId` denotes an id that is not in `drivers`, the fleet
is returned as it was and the fleets and loads are unchanged. A second call
gives the same response and differs from the first in the stamp of
`User(driverId)` only; made at the same time it leaves the same store. -/
theorem removeDriver_idempotent (now : Nat) (s : Store)
    (authorization : Option String) (owner : User) (fleet : Fleet)
    (driverId : String)
    (hfleet : s.fleets.find? (fun f => f.owner == owner._id) = some fleet) :
    (castObjectId driverId = none →
      FleetRoutes.removeDriver now driverId s ⟨authorization, some owner⟩
        = (.reply 500 (.error castError), s)) ∧
    (∀ id, castObjectId driverId = some id →
      (∃ fleet1,
        (FleetRoutes.removeDriver now driverId s ⟨authorization, some owner⟩).1
          = .reply 200 (.fleet "Driver removed successfully." fleet1) ∧
        (FleetRoutes.removeDriver now driverId s
            ⟨authorization, some owner⟩).2.fleets.find?
            (fun f => f.owner == owner._id) = some fleet1) ∧
      fleetIds (FleetRoutes.removeDriver now driverId s
          ⟨authorization, some owner⟩).2 = fleetIds s ∧
      (∀ other, other ≠ id →
        findUserById (FleetRoutes.removeDriver now driverId s
            ⟨authorization, some owner⟩).2.users other
          = findUserById s.users other) ∧
      findUserById (FleetRoutes.removeDriver now driverId s
          ⟨authorization, some owner⟩).2.users id
        = (findUserById s.users id).map (fun u => { u with updatedAt := now }) ∧
      (id ∉ fleet.drivers → (∀ d ∈ fleet.drivers, d < 16 ^ 24) →
        (FleetRoutes.removeDriver now driverId s ⟨authorization, some owner⟩).1
          = .reply 200 (.fleet "Driver removed successfully." fleet) ∧
        (FleetRoutes.removeDriver now driverId s
            ⟨authorization, some owner⟩).2.fleets = s.fleets ∧
        (FleetRoutes.removeDriver now driverId s
            ⟨authorization, some owner⟩).2.loads = s.loads) ∧
      (∀ (now2 : Nat) (authorization2 : Option String) (owner2 : User),
        owner2._id = owner._id →
        FleetRoutes.removeDriver now2 driverId
            (FleetRoutes.removeDriver now driverId s ⟨authorization, some owner⟩).2
            ⟨authorization2, some owner2⟩
          = ((FleetRoutes.removeDriver now driverId s ⟨authorization, some owner⟩).1,
              { (FleetRoutes.removeDriver now driverId s
                  ⟨authorization, some owner⟩).2 with
                users := setUserFleetId now2
                  (FleetRoutes.removeDriver now driverId s
                    ⟨authorization, some owner⟩).2.users id none }) ∧
        (now2 = now →
          FleetRoutes.removeDriver now2 driverId
              (FleetRoutes.removeDriver now driverId s ⟨authorization, some owner⟩).2
              ⟨authorization2, some owner2⟩
            = FleetRoutes.removeDriver now driverId s ⟨authorization, some owner⟩))) := by
  refine ⟨removeDriver_uncastable now driverId s authorization owner fleet hfleet, ?_⟩
  intro id hcast
  have hrun := removeDriver_found now driverId s authorization owner fleet id hfleet hcast
  have hsecond : ∀ (now2 : Nat) (authorization2 : Option String) (owner2 : User),
      owner2._id = owner._id →
      FleetRoutes.removeDriver now2 driverId
          (FleetRoutes.removeDriver now driverId s ⟨authorization, some owner⟩).2
          ⟨authorization2, some owner2⟩
        = ((FleetRoutes.removeDriver now driverId s ⟨authorization, some owner⟩).1,
            { (FleetRoutes.removeDriver now driverId s
                ⟨authorization, some owner⟩).2 with
              users := setUserFleetId now2
                (FleetRoutes.removeDriver now driverId s
                  ⟨authorization, some owner⟩).2.users id none }) := by
    intro now2 authorization2 owner2 hsame
    have hfleet1 : (FleetRoutes.removeDriver now driverId s
        ⟨authorization, some owner⟩).2.fleets.find? (fun f => f.owner == owner2._id)
        = some (FleetRoutes.withoutDriver now driverId fleet) := by
      rw [hrun, hsame]
      exact removeDriver_owner_fleet now driverId s fleet owner._id hfleet
    rw [removeDriver_found now2 driverId _ authorization2 owner2 _ id hfleet1 hcast,
      withoutDriver_idem, if_pos rfl, hrun]
  refine ⟨⟨FleetRoutes.withoutDriver now driverId fleet, by rw [hrun], ?_⟩,
    ?_, ?_, ?_, ?_, ?_⟩
  · rw [hrun]
    exact removeDriver_owner_fleet now driverId s fleet owner._id hfleet
  · rw [hrun]
    exact setUserFleetId_fleetIds now s.users id none
  · intro other hne
    rw [hrun]
    exact findUserById_setUserFleetId_other now s.users id other none hne
  · rw [hrun]
    exact findUserById_setUserFleetId_same now s.users id none
  · intro hnot hlt
    have hmatch : ∀ d ∈ fleet.drivers, hexString d ≠ driverId :=
      no_match_of_not_mem driverId id fleet.drivers hcast hnot hlt
    have hsame := withoutDriver_of_no_match now driverId fleet hmatch
    rw [hrun, hsame]
    exact ⟨rfl, if_pos rfl, rfl⟩
  · intro now2 authorization2 owner2 hsame
    refine ⟨hsecond now2 authorization2 owner2 hsame, ?_⟩
    intro hnow
    subst hnow
    rw [hsecond now2 authorization2 owner2 hsame, hrun]
    simp only [setUserFleetId_idem]

/-- C11, amended, at a concrete input: user 2, owner of fleet 101, removes
driver 3, who is not in it; the call is answered 200 with fleet 101 as it was. -/
theorem removeDriver_idempotent_witness :
    (FleetRoutes.removeDriver 60 Sample.id3 Sample.northSouth
        ⟨none, some Sample.dispatcher2⟩).1
      = .reply 200 (.fleet "Driver removed successfully."
          { _id := 101, fleetName := "South", owner := 2, drivers := [2],
            mcNumber := "", status := "active", createdAt := 41, updatedAt := 41 }) :=
  (((removeDriver_idempotent 60 Sample.northSouth none Sample.dispatcher2
      { _id := 101, fleetName := "South", owner := 2, drivers := [2],
        mcNumber := "", status := "active", createdAt := 41, updatedAt := 41 }
      Sample.id3 (by decide)).2 3 (by decide)).2.2.2.2.1
    (by decide) (by decide)).1

/-! ## C12: `DELETE /:id` -/

theorem eraseP_split (pre post : List Load) (load : Load) (id : ObjectId)
    (hid : load._id = id) (hpre : ∀ l ∈ pre, l._id ≠ id) :
    (pre ++ load :: post).eraseP (fun l => l._id == id) = pre ++ post := by
  induction pre with
  | nil => simp [List.eraseP, hid]
  | cons a as ih =>
    have ha : (a._id == id) = false := by simpa using hpre a (by simp)
    have step := ih (fun l hl => hpre l (by simp [hl]))
    simp only [List.cons_append, List.eraseP, ha, cond_false]
    exact congrArg (List.cons a) step

/-- C12 as stated fails: no load has `50` as the string of its id, yet
`DELETE /50` by a shipper is answered 500, not 404, because `50` is not the
string of any `ObjectId` and `findByIdAndDelete` throws. -/
theorem deleteLoad_uncastable_is_500 :
    Sample.orphanLoads.loads.all (fun l => hexString l._id != "50") = true ∧
    castObjectId "50" = none ∧
    LoadRoutes.deleteRoute Sample.verifyTok "50" Sample.orphanLoads
        ⟨some "Bearer tok", none⟩
      = (.reply 500 (.error castError), Sample.orphanLoads) := by
  decide

/-- C12, amended. For every store, every principal with role `shipper` or
`admin` and every path parameter `loadId`: if `loadId` is not a string of 24 hex
digits, `deleteLoad` answers 500 and the store is unchanged; if it is and no
load has the id it denotes, it answers 404 and the store is unchanged; if a load
has (the collection is `pre ++ load :: post` with `load` the document of that
id), it answers 200 and the collection becomes `pre ++ post`, nothing else in
the store changing. The shipper of `load` plays no part: the call succeeds
whoever the caller is. -/
theorem deleteLoad_any_shipper (verify : Option String → Option Claims) (s : Store)
    (req : Req Claims) (h : String) (c : Claims)
    (hh : req.authorization = some h) (hb : startsWith h "Bearer " = true)
    (hv : verify (secondWord h) = some c)
    (hr : c.role = "shipper" ∨ c.role = "admin") (loadId : String) :
    (castObjectId loadId = none →
      LoadRoutes.deleteRoute verify loadId s req
        = (.reply 500 (.error castError), s)) ∧
    (∀ oid, castObjectId loadId = some oid →
      ((∀ l ∈ s.loads, l._id ≠ oid) →
        LoadRoutes.deleteRoute verify loadId s req
          = (.reply 404 (.message "Load not found"), s)) ∧
      (∀ pre load post, s.loads = pre ++ load :: post → load._id = oid →
        (∀ l ∈ pre, l._id ≠ oid) →
        LoadRoutes.deleteRoute verify loadId s req
          = (.reply 200 (.message "🗑️ Load deleted successfully"),
              { s with loads := pre ++ post }))) := by
  have hrole : c.role ∈ ["shipper", "admin"] := by
    rcases hr with hr | hr <;> simp [hr]
  have hroute : LoadRoutes.deleteRoute verify loadId s req
      = LoadRoutes.deleteLoad loadId s { req with user := some c } :=
    load_route_authorised verify _ _ s req h c hh hb hv hrole
  refine ⟨?_, ?_⟩
  · intro hcast
    rw [hroute]
    simp only [LoadRoutes.deleteLoad, hcast]
  · intro oid hcast
    constructor
    · intro hnone
      rw [hroute]
      simp only [LoadRoutes.deleteLoad, hcast, find?_eq_none_of_all_ne s.loads oid hnone]
    · intro pre load post hs hid hpre
      have hfind : s.loads.find? (fun l => l._id == oid) = some load := by
        rw [hs]; exact find?_split pre post load oid hid hpre
      rw [hroute]
      simp only [LoadRoutes.deleteLoad, hcast, hfind]
      rw [hs, eraseP_split pre post load oid hid hpre]

/-- C12, amended, at a concrete input: shipper 7 deletes load 50, whose shipper
is 9. -/
theorem deleteLoad_any_shipper_witness :
    Sample.load50.shipperId ≠ 7 ∧
    LoadRoutes.deleteRoute Sample.verifyTok Sample.id50 Sample.orphanLoads
        ⟨some "Bearer tok", none⟩
      = (.reply 200 (.message "🗑️ Load deleted successfully"),
          { Sample.orphanLoads with loads := [] ++ [] }) :=
  ⟨by decide,
   (((deleteLoad_any_shipper Sample.verifyTok Sample.orphanLoads
      ⟨some "Bearer tok", none⟩ "Bearer tok"
      { id := 7, email := "s7@scc.test", role := "shipper" } rfl (by decide)
      (by decide) (Or.inl rfl) Sample.id50).2 50 (by decide)).2
      [] Sample.load50 [] rfl rfl (by simp))⟩

/-! ## C13: the role gate without a principal -/

/-- C13 as stated fails for the shared middleware: invoked on a request
without `req.user`, its `verifyRole` answers 401 like any rejection, and a
route it guards ends with that response. -/
theorem shared_verifyRole_answers_401 :
    AuthMiddleware.verifyRole ["admin"] ⟨some "Bearer tok", none⟩
      = .respond 401 "Unauthorized: No user found" ∧
    AuthMiddleware.verifyRole ["admin"] ⟨some "Bearer tok", none⟩ ≠ .throws ∧
    runRoute [fun _ r => AuthMiddleware.verifyRole ["admin"] r]
        (FleetRoutes.addDriver 60 Sample.id3) Sample.withNorth
        ⟨some "Bearer tok", none⟩
      = (.reply 401 (.message "Unauthorized: No user found"), Sample.withNorth) := by
  decide

/-- C13, amended. For every `allowedRoles`, on a request without `req.user`:
the `verifyRole` of `loadRoutes.js` throws (it reads `req.user.role`), so a
route it guards ends with an uncaught error; the shared `verifyRole` has a
guard for this case and answers 401 `Unauthorized: No user found`. Neither
calls `next()`, and the store is unchanged. -/
theorem verifyRole_without_principal (allowedRoles : List String)
    (authorization : Option String) :
    LoadRoutes.verifyRole allowedRoles ⟨authorization, none⟩ = .throws ∧
    (∀ (handler : Store → Req Claims → Outcome × Store) (s : Store),
      runRoute [fun _ r => LoadRoutes.verifyRole allowedRoles r] handler s
          ⟨authorization, none⟩ = (.uncaught, s)) ∧
    AuthMiddleware.verifyRole allowedRoles ⟨authorization, none⟩
      = .respond 401 "Unauthorized: No user found" ∧
    (∀ (handler : Store → Req User → Outcome × Store) (s : Store),
      runRoute [fun _ r => AuthMiddleware.verifyRole allowedRoles r] handler s
          ⟨authorization, none⟩
        = (.reply 401 (.message "Unauthorized: No user found"), s)) :=
  ⟨rfl, fun _ _ => rfl, rfl, fun _ _ => rfl⟩

end Freight
